import Mathlib

set_option maxRecDepth 8192

/-!
# Verification of the multi-tenant WhatsApp webhook engine (`holistic.js`)

A shallow embedding of the intent-dispatch and conversation-state engine of the
HRM chatbot webhook.  Pure JavaScript functions become Lean functions; the
Firestore document store becomes an explicit `Store` state record threaded
through each operation; the LLM provider and the JSON parser are treated as
oracles passed in explicitly; `Math.random` is modelled by an arbitrary stream
of naturals carried in the state.  All definitions are executable.
-/

namespace HRM

/-! ## Executable JS-string primitives

Lean's built-in `String.toLower`, `String.trim`, `String.splitOn`, ... are
defined by well-founded recursion on byte positions and do not reduce inside
the kernel; since witnesses must evaluate on concrete inputs, the JS string
operations used by the source are given as structural functions on the
underlying character list (same semantics for the single-character separators
the source uses). -/

/-- JS `s.toLowerCase()`. -/
def jsToLower (s : String) : String :=
  ⟨s.data.map Char.toLower⟩

/-- JS `s.trim()`. -/
def jsTrim (s : String) : String :=
  ⟨((s.data.dropWhile Char.isWhitespace).reverse.dropWhile Char.isWhitespace).reverse⟩

/-- JS `s.split(sep)` for a one-character separator, on character lists. -/
def splitOnChar (sep : Char) : List Char → List (List Char)
  | [] => [[]]
  | c :: t =>
    if c == sep then [] :: splitOnChar sep t
    else
      match splitOnChar sep t with
      | [] => [[c]]
      | p :: ps => (c :: p) :: ps

/-- JS `s.split(sep)` for a one-character separator. -/
def jsSplit (s : String) (sep : Char) : List String :=
  (splitOnChar sep s.data).map fun l => ⟨l⟩

/-- JS `s.startsWith(p)`. -/
def jsStartsWith (s p : String) : Bool :=
  p.data.isPrefixOf s.data

/-- JS `s.slice(0, n)` / `s.substring(0, n)`. -/
def jsTake (s : String) (n : Nat) : String :=
  ⟨s.data.take n⟩

/-- JS `arr.join(sep)`. -/
def jsJoin (sep : String) (parts : List String) : String :=
  ⟨List.intercalate sep.data (parts.map String.data)⟩

/-! ## Fuzzy specialty matcher: `levenshteinDistance` (holistic.js 1409-1436)

The source fills a `(len(a)+1) × (len(b)+1)` matrix row by row.  `levMatrixCell`
is the mathematical content of that table: `levMatrixCell as bs i j` is the value
`matrix[i][j]`, defined by the classic recurrence the loop implements.
`levRowAux`/`levRows` are the faithful translation of the loop itself (row `i`
is computed from row `i-1`, reading `diag = matrix[i-1][j-1]`,
`above = matrix[i-1][j]` and `left = matrix[i][j-1]`), and we prove the two
agree. -/

/-- `matrix[i][j]` of the classic dynamic-programming edit-distance table:
base cases `matrix[i][0] = i` and `matrix[0][j] = j`, and unit-cost
insertion/deletion/substitution in the recurrence (holistic.js 1415-1433). -/
def levMatrixCell (as bs : List Char) : Nat → Nat → Nat
  | i, 0 => i
  | 0, j => j
  | i + 1, j + 1 =>
    if as.getD i ' ' == bs.getD j ' ' then levMatrixCell as bs i j
    else
      min (min (levMatrixCell as bs i (j + 1) + 1) (levMatrixCell as bs (i + 1) j + 1))
        (levMatrixCell as bs i j + 1)
  termination_by i j => (i, j)

/-- Inner loop of `levenshteinDistance` (holistic.js 1423-1433): walk the
characters of `b` producing the cells `matrix[i][1..ib]` of the current row.
`diag`/`above :: rest` walk the previous row, `left` is the cell just written. -/
def levRowAux (ca : Char) : List Char → Nat → List Nat → Nat → List Nat
  | [], _, _, _ => []
  | _ :: _, _, [], _ => []
  | cb :: bs, diag, above :: rest, left =>
    let cell := if ca == cb then diag else min (min (above + 1) (left + 1)) (diag + 1)
    cell :: levRowAux ca bs above rest cell

/-- Outer loop of `levenshteinDistance` (holistic.js 1422-1434): for each
character of `a` produce the next row from the previous one; a row starts with
`matrix[i][0] = i`. -/
def levRows (bs : List Char) : List Char → Nat → List Nat → List Nat
  | [], _, prev => prev
  | ca :: as, i, prev =>
    let newRow :=
      match prev with
      | [] => [i + 1]
      | diag :: tail => (i + 1) :: levRowAux ca bs diag tail (i + 1)
    levRows bs as (i + 1) newRow

/-- `levenshteinDistance` on character lists: the early returns for empty
strings (JS `if (!a) return b.length` / `if (!b) return a.length`,
holistic.js 1410-1411) followed by the row-by-row table fill; the result is
`matrix[ia][ib]`, the last cell of the final row. -/
def levenshteinDistanceL (as bs : List Char) : Nat :=
  if as = [] then bs.length
  else if bs = [] then as.length
  else (levRows bs as 0 (List.range (bs.length + 1))).getD bs.length 0

/-- `levenshteinDistance(a, b)` (holistic.js 1409). -/
def levenshteinDistance (a b : String) : Nat :=
  levenshteinDistanceL a.data b.data

theorem levMatrixCell_i_zero (as bs : List Char) (i : Nat) :
    levMatrixCell as bs i 0 = i := by
  cases i <;> simp [levMatrixCell]

theorem levMatrixCell_zero_j (as bs : List Char) (j : Nat) :
    levMatrixCell as bs 0 j = j := by
  cases j <;> simp [levMatrixCell]

theorem levMatrixCell_succ_succ (as bs : List Char) (i j : Nat) :
    levMatrixCell as bs (i + 1) (j + 1) =
      if as.getD i ' ' == bs.getD j ' ' then levMatrixCell as bs i j
      else
        min (min (levMatrixCell as bs i (j + 1) + 1) (levMatrixCell as bs (i + 1) j + 1))
          (levMatrixCell as bs i j + 1) := by
  simp [levMatrixCell]

theorem mapRange_succ {α : Type} (f : Nat → α) (n : Nat) :
    (List.range (n + 1)).map f = f 0 :: (List.range n).map (fun k => f (k + 1)) := by
  rw [List.range_succ_eq_map, List.map_cons, List.map_map]
  rfl

theorem getD_of_drop_cons {α : Type} [Inhabited α] {bs : List α} {j : Nat} {c : α}
    {t : List α} (h : bs.drop j = c :: t) (d : α) : bs.getD j d = c := by
  have h0 : (bs.drop j)[0]? = bs[j + 0]? := List.getElem?_drop bs j 0
  rw [h] at h0
  simp only [List.getElem?_cons_zero, Nat.add_zero] at h0
  rw [List.getD_eq_getElem?_getD, ← h0]
  rfl

theorem drop_cons_succ {α : Type} {bs : List α} {j : Nat} {c : α} {t : List α}
    (h : bs.drop j = c :: t) : bs.drop (j + 1) = t := by
  rw [← List.tail_drop, h]
  rfl

theorem lt_length_of_drop_cons {α : Type} {bs : List α} {j : Nat} {c : α} {t : List α}
    (h : bs.drop j = c :: t) : j < bs.length := by
  by_contra hc
  rw [List.drop_eq_nil_of_le (Nat.le_of_not_lt hc)] at h
  exact List.noConfusion h

theorem levRowAux_spec (as bs : List Char) (i : Nat) :
    ∀ (bsuf : List Char) (j : Nat), bs.drop j = bsuf →
      levRowAux (as.getD i ' ') bsuf (levMatrixCell as bs i j)
          ((List.range bsuf.length).map (fun k => levMatrixCell as bs i (j + 1 + k)))
          (levMatrixCell as bs (i + 1) j)
        = (List.range bsuf.length).map (fun k => levMatrixCell as bs (i + 1) (j + 1 + k)) := by
  intro bsuf
  induction bsuf with
  | nil => intro j _; simp [levRowAux]
  | cons cb bs' ih =>
    intro j h
    have hcb : bs.getD j ' ' = cb := getD_of_drop_cons h ' '
    have hdrop : bs.drop (j + 1) = bs' := drop_cons_succ h
    rw [List.length_cons, mapRange_succ, mapRange_succ]
    simp only [levRowAux]
    have hcell :
        (if as.getD i ' ' == cb then levMatrixCell as bs i j
          else
            min (min (levMatrixCell as bs i (j + 1 + 0) + 1) (levMatrixCell as bs (i + 1) j + 1))
              (levMatrixCell as bs i j + 1))
        = levMatrixCell as bs (i + 1) (j + 1) := by
      rw [levMatrixCell_succ_succ, hcb]
    rw [hcell]
    have hshift :
        (fun k => levMatrixCell as bs i (j + 1 + (k + 1)))
          = fun k => levMatrixCell as bs i (j + 1 + 1 + k) := by
      funext k; congr 1; omega
    have hshift' :
        (fun k => levMatrixCell as bs (i + 1) (j + 1 + (k + 1)))
          = fun k => levMatrixCell as bs (i + 1) (j + 1 + 1 + k) := by
      funext k; congr 1; omega
    rw [hshift, hshift']
    have := ih (j + 1) hdrop
    simp only [Nat.add_zero]
    rw [this]

theorem levRows_spec (as bs : List Char) :
    ∀ (asuf : List Char) (i : Nat), as.drop i = asuf → i ≤ as.length →
      levRows bs asuf i ((List.range (bs.length + 1)).map (levMatrixCell as bs i))
        = (List.range (bs.length + 1)).map (levMatrixCell as bs as.length) := by
  intro asuf
  induction asuf with
  | nil =>
    intro i h hle
    have : as.length ≤ i := by
      have := congrArg List.length h
      simp [List.length_drop] at this
      omega
    have hi : i = as.length := Nat.le_antisymm hle this
    rw [hi, levRows]
  | cons ca as' ih =>
    intro i h hle
    have hca : as.getD i ' ' = ca := getD_of_drop_cons h ' '
    have hdrop : as.drop (i + 1) = as' := drop_cons_succ h
    have hlt : i < as.length := lt_length_of_drop_cons h
    rw [mapRange_succ, levMatrixCell_i_zero]
    simp only [levRows]
    have haux := levRowAux_spec as bs i bs 0 (by rfl)
    have h0 : (fun k => levMatrixCell as bs i (0 + 1 + k)) = fun k => levMatrixCell as bs i (k + 1) := by
      funext k; congr 1; omega
    have h0' : (fun k => levMatrixCell as bs (i + 1) (0 + 1 + k))
        = fun k => levMatrixCell as bs (i + 1) (k + 1) := by
      funext k; congr 1; omega
    rw [h0, h0', levMatrixCell_i_zero, levMatrixCell_i_zero] at haux
    rw [hca] at haux
    rw [haux]
    have hrow : (i + 1) :: (List.range bs.length).map (fun k => levMatrixCell as bs (i + 1) (k + 1))
        = (List.range (bs.length + 1)).map (levMatrixCell as bs (i + 1)) := by
      rw [mapRange_succ, levMatrixCell_i_zero]
    rw [hrow]
    exact ih (i + 1) hdrop hlt

/-- The row-by-row loop of the source computes exactly the classic
dynamic-programming table: `levenshteinDistance` is `matrix[len a][len b]`. -/
theorem levenshteinDistanceL_eq_matrix (as bs : List Char) :
    levenshteinDistanceL as bs = levMatrixCell as bs as.length bs.length := by
  unfold levenshteinDistanceL
  by_cases ha : as = []
  · subst ha
    simp [levMatrixCell_zero_j]
  · rw [if_neg ha]
    by_cases hb : bs = []
    · subst hb
      simp [levMatrixCell_i_zero]
    · rw [if_neg hb]
      have h0 : (List.range (bs.length + 1)).map (levMatrixCell as bs 0)
          = List.range (bs.length + 1) := by
        rw [List.map_congr_left (fun j _ => levMatrixCell_zero_j as bs j)]
        exact List.map_id _
      rw [← h0, levRows_spec as bs as 0 rfl (Nat.zero_le _)]
      rw [List.getD_eq_getElem?_getD, List.getElem?_map,
        List.getElem?_range (Nat.lt_succ_self _)]
      rfl

/-! ## String utilities shared by the matcher and the handlers -/

/-- JS `needle.isPrefixOf`-based substring containment: `haystack.includes(needle)`. -/
def containsSeq (needle : List Char) : List Char → Bool
  | [] => needle.isPrefixOf []
  | c :: t => needle.isPrefixOf (c :: t) || containsSeq needle t

/-- JS `s.includes(sub)`. -/
def jsIncludes (s sub : String) : Bool :=
  containsSeq sub.data s.data

/-- JS `s.replace(/^['\x27"]|['"]$/g, "")` as used in `findDoctorsByFuzzySpecialty`
(holistic.js 1385, 1393): remove one leading and one trailing quote character. -/
def stripQuotes (s : String) : String :=
  let l1 := match s.data with
    | c :: rest => if c == '\'' || c == '"' then rest else s.data
    | [] => []
  let l2 := match l1.getLast? with
    | some c => if c == '\'' || c == '"' then l1.dropLast else l1
    | none => l1
  ⟨l2⟩

/-- `spec.toLowerCase().trim().replace(/^['"]|['"]$/g, "")` (holistic.js 1385, 1393). -/
def normalizeSpecialty (s : String) : String :=
  stripQuotes (jsTrim (jsToLower s))

/-- A document of the `Doctors` collection. -/
structure Doctor where
  OrgID : String
  Name : String
  Specialization : List String
  deriving Repr, DecidableEq

/-- The per-specialization test of `findDoctorsByFuzzySpecialty`
(holistic.js 1392-1396); `target` is the already-normalized classified
specialty. -/
def specialtyMatches (target : String) (spec : String) : Bool :=
  let s := normalizeSpecialty spec
  let dist := levenshteinDistance s target
  let substringCheck := jsIncludes s target || jsIncludes target s
  decide (dist ≤ 3) || substringCheck

/-- `findDoctorsByFuzzySpecialty(specialty, orgId)` (holistic.js 1377-1407) over
an explicit `Doctors` collection: the Firestore `where("OrgID","==",orgId)`
query plus the fuzzy `some(...)` check over each doctor's specialization list. -/
def findDoctorsByFuzzySpecialty (specialty : String) (orgId : String)
    (doctors : List Doctor) : List Doctor :=
  let target := normalizeSpecialty specialty
  doctors.filter fun d => d.OrgID == orgId && d.Specialization.any (specialtyMatches target)

/-! ## Label decoders (holistic.js 1441-1460) -/

/-- `parseYesNo(val, fallback = "No")` (holistic.js 1441-1446).  A missing or
empty value (JS falsy) yields the fallback; otherwise split on `"_"` and return
`parts[1]` when there are at least two parts, else the value unchanged. -/
def parseYesNo (val : Option String) (fallback : String := "No") : String :=
  match val with
  | none => fallback
  | some v =>
    if v == "" then fallback
    else
      let parts := jsSplit v '_'
      if parts.length > 1 then parts.getD 1 v else v

/-- `parseStarRating(val, fallback = "NA")` (holistic.js 1448-1453): first match
of the regex `\((\d)\/5\)`, scanning left to right. -/
def findStar : List Char → Option Char
  | '(' :: d :: '/' :: '5' :: ')' :: rest =>
    if d.isDigit then some d else findStar (d :: '/' :: '5' :: ')' :: rest)
  | _ :: rest => findStar rest
  | [] => none

def parseStarRating (val : Option String) (fallback : String := "NA") : String :=
  match val with
  | none => fallback
  | some v =>
    if v == "" then fallback
    else
      match findStar v.data with
      | some d => String.singleton d
      | none => fallback

/-- `parseNumberFromLabel(val, fallback = "Unknown")` (holistic.js 1455-1460),
same shape as `parseYesNo`. -/
def parseNumberFromLabel (val : Option String) (fallback : String := "Unknown") : String :=
  match val with
  | none => fallback
  | some v =>
    if v == "" then fallback
    else
      let parts := jsSplit v '_'
      if parts.length > 1 then parts.getD 1 v else v

/-! ## Knowledge lookup (holistic.js 1186-1275)

The two LLM calls are oracles: `LlmOutcome` is the outcome of one
`openai.createChatCompletion` call as seen by the caller. -/

/-- Outcome of one LLM chat-completion call: the call threw (`fail`), returned
no choice (`noChoice`), or returned a first choice with the given message
content. -/
inductive LlmOutcome where
  | fail : LlmOutcome
  | noChoice : LlmOutcome
  | ok : String → LlmOutcome
  deriving Repr, DecidableEq

/-- `refineKnowledgeWithGpt(userQuery, matchedLines, orgConfig)`
(holistic.js 1249-1275): return the LLM summary, falling back to the matched
lines joined with newlines when the call throws, yields no choice, or yields
empty content. -/
def refineKnowledgeWithGpt (matchedLines : List String) (o : LlmOutcome) : String :=
  let joined := jsJoin "\n" matchedLines
  match o with
  | .fail => joined
  | .noChoice => joined
  | .ok content => if content == "" then joined else content

/-- `checkKnowledgeFullWithGpt(userQuery, fullKnowledgeText, orgConfig)`
(holistic.js 1186-1221): whole-text LLM pass; a reply containing one of the
fixed "no relevant info" phrases (lower-cased) or shorter than 4 characters is
collapsed to `""`; a thrown call also yields `""`. -/
def checkKnowledgeFullWithGpt (o : LlmOutcome) : String :=
  match o with
  | .fail => ""
  | .noChoice => ""
  | .ok content =>
    let reply := jsTrim content
    if jsIncludes (jsToLower reply) "no relevant info"
        || jsIncludes (jsToLower reply) "no relevant information"
        || jsIncludes (jsToLower reply) "nothing relevant"
        || decide (reply.length < 4) then ""
    else reply

/-- Result of `knowledgeLookupImpl`, with flags recording which of the two LLM
tiers was actually invoked. -/
structure KnowledgeResult where
  answer : String
  refineCalled : Bool
  fullCalled : Bool
  deriving Repr, DecidableEq

/-- `knowledgeLookupImpl(userQuery, orgId)` (holistic.js 1223-1247), with the
loaded knowledge text, organization display name and the two LLM oracles passed
explicitly.  Tier 1: case-insensitive substring match of the query against
every line; tier 2 (only when no line matches): whole-text LLM pass. -/
def knowledgeLookupImpl (userQuery knowledgeText orgName : String)
    (refineO fullO : LlmOutcome) : KnowledgeResult :=
  if knowledgeText == "" || jsStartsWith knowledgeText "Error"
      || jsStartsWith knowledgeText "No knowledge" then
    { answer := s!"No knowledge base loaded for {orgName}. Sorry.",
      refineCalled := false, fullCalled := false }
  else
    let lcQuery := jsToLower userQuery
    let lines := jsSplit knowledgeText '\n'
    let matchingLines := lines.filter fun line => jsIncludes (jsToLower line) lcQuery
    if matchingLines.length > 0 then
      { answer := refineKnowledgeWithGpt matchingLines refineO,
        refineCalled := true, fullCalled := false }
    else
      let fallbackReply := checkKnowledgeFullWithGpt fullO
      if (jsTrim fallbackReply).length > 0 then
        { answer := fallbackReply, refineCalled := false, fullCalled := true }
      else
        { answer := s!"No direct info found in the knowledge base. Please ask more about {orgName}!",
          refineCalled := false, fullCalled := true }

/-! ## `nfm_reply` form dispatch (holistic.js 1650-1728) -/

/-- The labeled fields of a parsed `nfm_reply` JSON payload that the webhook
inspects.  `none` = key absent. -/
structure NfmFlowData where
  fullName0 : Option String := none
  gender1 : Option String := none
  dob2 : Option String := none
  address3 : Option String := none
  choose0 : Option String := none
  leaveA1 : Option String := none
  staffExperience0 : Option String := none
  doctorConsultation1 : Option String := none
  overallExperience2 : Option String := none
  descriptionOfIssue2 : Option String := none
  urgency1 : Option String := none
  category0 : Option String := none
  flow_token : Option String := none
  deriving Repr, DecidableEq

/-- JS truthiness of an optional string field: present and non-empty. -/
def truthy : Option String → Bool
  | none => false
  | some s => !(s == "")

inductive FormRoute where
  | registration : FormRoute
  | feedback : FormRoute
  | support : FormRoute
  | appointment : FormRoute
  deriving Repr, DecidableEq

/-- The branch order of the `nfm_reply` handler (holistic.js 1673-1717):
`if (flowData["screen_0_Full_Name_0"]) ... else if (flowData["screen_0_Choose_0"])
... else if (flowData["screen_0_Description_of_issue_2"]) ... else` appointment. -/
def routeNfmReply (fd : NfmFlowData) : FormRoute :=
  if truthy fd.fullName0 then .registration
  else if truthy fd.choose0 then .feedback
  else if truthy fd.descriptionOfIssue2 then .support
  else .appointment


/-! ## The document store

Firestore collections become explicit state: `PoC` documents are keyed by the
naturals below `nextId` (the id allocator), the organization-owned
sub-collections (`Appointment`, `Checkin`, `Notifications`) are lists tagged
with the owning `OrgID`, and outbound WhatsApp traffic and LLM invocations are
recorded as effect logs.  `Math.random` is an arbitrary stream `rand` consumed
at position `randPos`; timestamps are the abstract clock `now`. -/

structure Patient where
  Name : String
  Gender : String
  Age : Nat
  Relation : String
  deriving Repr, DecidableEq

structure ChatMsg where
  Direction : String
  From : String
  To : String
  Msg_Type : String
  Msg_Body : String
  Timestamp : Nat
  deriving Repr, DecidableEq

structure Turn where
  role : String
  content : String
  deriving Repr, DecidableEq

/-- A `PoC` (contact) document with its `Patients` and `Chat` sub-collections
and the `chatState` conversation blob (holistic.js 734-742, 759-766). -/
structure PoC where
  Name : String
  Phone : String
  BotMode : Bool
  addedBy : String
  registered : Bool
  Created_Timestamp : Nat
  lastSeen : Nat
  chat : List ChatMsg
  patients : List Patient
  chatState : List Turn
  deriving Repr, DecidableEq

/-- An `Organisation` document as seen through `loadOrganizationConfig`
(holistic.js 82-95); `knowledge` is the knowledge-base text
`loadKnowledgeBase` resolves for this organization (the URL/file fetch itself
is external I/O). -/
structure Organisation where
  OrgID : String
  orgName : String
  whatsappPhoneId : String
  whatsappToken : String
  billingActive : Bool
  knowledge : String
  deriving Repr, DecidableEq

structure Feedback where
  Recommend : String
  Comments : String
  Staff_Experience : String
  Doctor_consultation : String
  Overall_Experience : String
  submittedAt : Nat
  deriving Repr, DecidableEq

structure Appointment where
  AppointmentID : String
  OrgID : String
  FlowToken : String
  userPhone : String
  doctorName : String
  feedback : Option Feedback
  deriving Repr, DecidableEq

structure Checkin where
  CheckinID : String
  OrgID : String
  phone : String
  checkinTime : Nat
  deriving Repr, DecidableEq

structure Notification where
  nFrom : String
  message : String
  event : String
  seen : Bool
  OrgID : String
  deriving Repr, DecidableEq

/-- One outbound WhatsApp API call: a plain text message, a named template
(`welcome`/`support`) or an interactive flow prompt. -/
structure OutboundMsg where
  toPhone : String
  kind : String
  body : String
  param : String
  OrgID : String
  deriving Repr, DecidableEq

structure Store where
  now : Nat
  nextId : Nat
  pocs : Nat → Option PoC
  orgs : List Organisation
  doctors : List Doctor
  appointments : List Appointment
  checkins : List Checkin
  notifications : List Notification
  outbound : List OutboundMsg
  llmCalls : Nat
  rand : Nat → Nat
  randPos : Nat

/-- `loadOrganizationConfig` / `getOrganisationRef`: the Firestore query
`Organisation.where("OrgID","==",orgId).limit(1)` (holistic.js 70-74, 450-461). -/
def findOrg (st : Store) (orgId : String) : Option Organisation :=
  st.orgs.find? fun o => o.OrgID == orgId

/-- `createNotification` (holistic.js 466-492) once the organization reference
has been resolved by the caller. -/
def addNotification (st : Store) (orgId nFrom message event : String) : Store :=
  { st with notifications := st.notifications ++
      [{ nFrom := nFrom, message := message, event := event, seen := false, OrgID := orgId }] }

/-- The alphabet of `generateId` (holistic.js 366-373). -/
def idAlphabet : List Char :=
  "ABCDEFGHIJKLMNOPQRSTUVWXYZabcdefghijklmnopqrstuvwxyz0123456789".data

/-- `generateId(length)` (holistic.js 366-373): pick `length` random characters
from the 62-character alphabet, consuming the random stream. -/
def generateId (st : Store) (length : Nat) : String × Store :=
  (⟨(List.range length).map fun k => idAlphabet.getD (st.rand (st.randPos + k) % 62) 'A'⟩,
   { st with randPos := st.randPos + length })

/-- `generateFlowToken(length)` (holistic.js 375-382). -/
def generateFlowToken (st : Store) (length : Nat) : String × Store :=
  (⟨(List.range length).map fun k => "0123456789".data.getD (st.rand (st.randPos + k) % 10) '0'⟩,
   { st with randPos := st.randPos + length })

/-- Apply `f` to the PoC document with the given id, if present. -/
def modifyPoC (st : Store) (id : Nat) (f : PoC → PoC) : Store :=
  { st with pocs := Function.update st.pocs id ((st.pocs id).map f) }

/-- `updatePoCLastSeen` (holistic.js 261-271). -/
def updatePoCLastSeen (st : Store) (id : Nat) : Store :=
  modifyPoC st id fun p => { p with lastSeen := st.now }

/-- `saveChatToPoC` (holistic.js 771-791): truncate the body to 300 characters
plus a marker, append the entry to the `Chat` sub-collection, update last-seen. -/
def saveChatToPoC (st : Store) (id : Nat)
    (direction fromN toN msgType msgBody : String) : Store :=
  let truncated := if msgBody.length > 300 then jsTake msgBody 300 ++ "...(truncated)" else msgBody
  let entry : ChatMsg := { Direction := direction, From := fromN, To := toN,
                           Msg_Type := msgType, Msg_Body := truncated, Timestamp := st.now }
  let st1 := modifyPoC st id fun p => { p with chat := p.chat ++ [entry] }
  updatePoCLastSeen st1 id

/-- `sendWhatsAppMessage(to, message, orgId)` (holistic.js 497-539): aborts
without configuration or credentials, else records one outbound text message. -/
def sendWhatsAppMessage (st : Store) (toN message orgId : String) : Store :=
  match findOrg st orgId with
  | none => st
  | some org =>
    if org.whatsappToken == "" || org.whatsappPhoneId == "" then st
    else
      { st with outbound := st.outbound ++
          [{ toPhone := toN, kind := "text", body := message, param := "", OrgID := orgId }] }

/-- `sendWelcomeTemplate(userPhone, pocName, orgId)` (holistic.js 544-618). -/
def sendWelcomeTemplate (st : Store) (userPhone pocName orgId : String) : Store :=
  match findOrg st orgId with
  | none => st
  | some org =>
    { st with outbound := st.outbound ++
        [{ toPhone := userPhone, kind := "template:welcome", body := org.orgName,
           param := pocName, OrgID := orgId }] }

/-- `sendSupportTemplate(userPhone, orgId)` (holistic.js 1033-1094). -/
def sendSupportTemplate (st : Store) (userPhone orgId : String) : Store :=
  match findOrg st orgId with
  | none => st
  | some org =>
    { st with outbound := st.outbound ++
        [{ toPhone := userPhone, kind := "template:support", body := org.orgName,
           param := "", OrgID := orgId }] }

/-- `sendAppointmentFlow(userPhone, orgId)` (holistic.js 857-912): generate a
fresh 6-digit flow token and record the interactive flow prompt. -/
def sendAppointmentFlow (st : Store) (userPhone orgId : String) : Store :=
  match findOrg st orgId with
  | none => st
  | some org =>
    let tok := generateFlowToken st 6
    { tok.2 with outbound := tok.2.outbound ++
        [{ toPhone := userPhone, kind := "flow:Appointment", body := tok.1,
           param := org.orgName, OrgID := orgId }] }

/-- The Firestore lookup of `getOrCreatePoCByPhone` (holistic.js 719-724):
`PoC.where("Phone","==",phone).where("addedBy","==",orgId).limit(1)`. -/
def findPoC (st : Store) (phone orgId : String) : Option Nat :=
  (List.range st.nextId).find? fun i =>
    match st.pocs i with
    | some p => p.Phone == phone && p.addedBy == orgId
    | none => false

/-- The `if (orgRef) createNotification(...)` step of contact creation
(holistic.js 745-750). -/
def notifyNewUser (st : Store) (orgId phone safeName : String) : Store :=
  match findOrg st orgId with
  | some _ => addNotification st orgId phone s!"New user {safeName} created an account" "NewUser"
  | none => st

/-- The creation branch of `getOrCreatePoCByPhone` (holistic.js 733-768):
create the contact document (bot-mode on, unregistered), emit the `NewUser`
notification if the organization document exists, send the welcome template,
then add the default patient (the source's self-name check at line 755
compares a string to itself and is always true, so `Relation` is always
`"Self"` — preserved as-is). -/
def createNewPoC (phone contactName orgId : String) (st : Store) : Nat × Store :=
  let safeName := contactName
  let id := st.nextId
  let newPoc : PoC := { Name := safeName, Phone := phone, BotMode := true, addedBy := orgId,
                        registered := false, Created_Timestamp := st.now, lastSeen := st.now,
                        chat := [], patients := [], chatState := [] }
  let st1 := { st with nextId := st.nextId + 1, pocs := Function.update st.pocs id (some newPoc) }
  let st2 := notifyNewUser st1 orgId phone safeName
  let st3 := sendWelcomeTemplate st2 phone safeName orgId
  let relationVal :=
    if jsToLower (jsTrim safeName) == jsToLower (jsTrim safeName) then "Self" else ""
  let st4 := modifyPoC st3 id fun p =>
    { p with patients := p.patients ++
        [{ Name := safeName, Gender := "NA", Age := 0, Relation := relationVal }] }
  (id, st4)

/-- `getOrCreatePoCByPhone(phone, contactName, orgId)` (holistic.js 716-769):
found contacts get a last-seen update and their existing reference returned;
unseen `(phone, orgId)` pairs go through the creation branch. -/
def getOrCreatePoCByPhone (phone contactName orgId : String) (st : Store) : Nat × Store :=
  match findPoC st phone orgId with
  | some id => (id, updatePoCLastSeen st id)
  | none => createNewPoC phone contactName orgId st

theorem getOrCreate_eq_found {st : Store} {phone orgId : String} {id : Nat}
    (contactName : String) (hf : findPoC st phone orgId = some id) :
    getOrCreatePoCByPhone phone contactName orgId st = (id, updatePoCLastSeen st id) := by
  simp only [getOrCreatePoCByPhone, hf]

theorem getOrCreate_eq_create {st : Store} {phone orgId : String}
    (contactName : String) (hf : findPoC st phone orgId = none) :
    getOrCreatePoCByPhone phone contactName orgId st
      = createNewPoC phone contactName orgId st := by
  simp only [getOrCreatePoCByPhone, hf]

/-- `createCheckinDoc(pocRef, userPhone, orgId)` (holistic.js 1152-1181):
no-op without an organization document; otherwise persist one `Checkin` with id
`"CHK-" + generateId(8)` and emit one `Checkin` notification. -/
def createCheckinDoc (st : Store) (id : Nat) (userPhone orgId : String) : Store :=
  match findOrg st orgId with
  | none => st
  | some _ =>
    let userName := match st.pocs id with
      | some p => if p.Name == "" then "User" else p.Name
      | none => "User"
    let gen := generateId st 8
    let checkinId := "CHK-" ++ gen.1
    let st2 := { gen.2 with checkins := gen.2.checkins ++
        [{ CheckinID := checkinId, OrgID := orgId, phone := userPhone, checkinTime := st.now }] }
    addNotification st2 orgId userPhone s!"{userName} just checked in at the facility" "Checkin"

/-- Replace the first list element satisfying `p` (the document returned by a
`limit(1)` query) by `f` of it. -/
def updateFirst {α : Type} (p : α → Bool) (f : α → α) : List α → List α
  | [] => []
  | x :: xs => if p x then f x :: xs else x :: updateFirst p f xs

/-- `updateAppointmentFeedback(flowData, orgId)` (holistic.js 1465-1528):
parse the submission fields, look up the appointment by exact `FlowToken`
match within the organization; with no match (or no organization document)
return with no change at all; otherwise attach the `feedback` object to that
appointment and emit one `Feedback` notification. -/
def updateAppointmentFeedback (fd : NfmFlowData) (orgId : String) (st : Store) : Store :=
  let flowToken := fd.flow_token.getD ""
  let recommend := parseYesNo fd.choose0 "No"
  let comments := fd.leaveA1.getD ""
  let staffExp := parseStarRating fd.staffExperience0 "NA"
  let docConsult := parseStarRating fd.doctorConsultation1 "NA"
  let overallExp := parseStarRating fd.overallExperience2 "NA"
  match findOrg st orgId with
  | none => st
  | some _ =>
    match st.appointments.find? fun a => a.OrgID == orgId && a.FlowToken == flowToken with
    | none => st
    | some apt =>
      let fb : Feedback := { Recommend := recommend, Comments := comments,
                             Staff_Experience := staffExp, Doctor_consultation := docConsult,
                             Overall_Experience := overallExp, submittedAt := st.now }
      let upd := updateFirst (fun a => a.OrgID == orgId && a.FlowToken == flowToken)
        (fun a => { a with feedback := some fb }) st.appointments
      let st1 := { st with appointments := upd }
      let userPhone := if apt.userPhone == "" then "Unknown" else apt.userPhone
      let doctorName := if apt.doctorName == "" then "Unknown" else apt.doctorName
      let overallRating := if overallExp == "NA" then "N/A" else overallExp ++ "/5"
      addNotification st1 orgId userPhone
        s!"Feedback received for appointment with {doctorName}. Overall rating: {overallRating}"
        "Feedback"

/-! ## Intent handlers and the LLM function-calling loop (holistic.js 1280-1375, 1533-1568, 1824-1927) -/

/-- Parsed `arguments` of an LLM function call. -/
structure FnArgs where
  action : Option String := none
  department : Option String := none
  userQuery : Option String := none
  userMessage : Option String := none
  userSymptom : Option String := none
  deriving Repr, DecidableEq

/-- The outcome of the main chat completion as seen by the webhook
(holistic.js 1884-1903): no choice, a function call (whose JSON `arguments`
either parsed to the record or threw), or a plain-text reply. -/
inductive LlmChoice where
  | noChoice : LlmChoice
  | funCall : String → Option FnArgs → LlmChoice
  | reply : String → LlmChoice

/-- The external oracles of one webhook delivery: the main LLM choice, the two
knowledge-lookup completions, the per-fragment symptom classifier, and
`JSON.parse(reply).reply` (holistic.js 1909-1914: `some r` iff the reply parses
as JSON carrying a truthy `reply` field). -/
structure Oracles where
  choice : LlmChoice
  refine : LlmOutcome
  fullKb : LlmOutcome
  classify : String → LlmOutcome
  jsonReply : String → Option String

/-- `smallTalkImpl(userMessage, orgId, orgConfig)` (holistic.js 1280-1284). -/
def smallTalkImpl (orgId : String) (orgConfig : Option Organisation) : String :=
  let orgName := match orgConfig with
    | some org => if org.orgName == "" then orgId else org.orgName
    | none => orgId
  s!"Hello! {orgName} is here to help. How can we assist you today?"

/-- `loadKnowledgeBase(orgId)` (holistic.js 183-236) with the fetched text
carried on the `Organisation` document (`knowledge`); without an organization
configuration the fixed string is returned. -/
def loadKnowledgeBase (st : Store) (orgId : String) : String :=
  match findOrg st orgId with
  | none => "No organization configuration found."
  | some org => org.knowledge

/-- `POSSIBLE_SPECIALTIES` (holistic.js 1325-1343). -/
def POSSIBLE_SPECIALTIES : List String :=
  ["General Physician", "Neurologist", "Cardiologist", "Orthopedic Surgeon",
   "Pediatrician", "Gynecologist", "Pathologist", "Oncologist",
   "ENT Surgeon", "Gastroenterologist", "Neuro Physician",
   "General Surgeon", "Urologist", "Nephrologist", "Dermatologist",
   "Physiotherapist", "RMO", "Psychologist", "Anesthesiologist",
   "Allergist/Immunologist", "Endocrinologist", "Hematologist",
   "Infectious Disease Specialist", "Pulmonologist", "Radiologist",
   "Rheumatologist", "Psychiatrist", "Ophthalmologist", "Plastic Surgeon",
   "Vascular Surgeon", "Neonatologist", "Geriatrician",
   "Sports Medicine Specialist", "Emergency Medicine Physician",
   "Critical Care Specialist", "Family Medicine Physician",
   "Pain Management Specialist", "Occupational Health Physician",
   "Cardiothoracic Surgeon", "Neurosurgeon", "Hepatologist",
   "Colorectal Surgeon", "Obstetrician", "Andrologist",
   "Pediatric Surgeon", "Medical Geneticist", "Forensic Pathologist",
   "Maxillofacial Surgeon", "Transplant Surgeon", "Nuclear Medicine Physician",
   "Interventional Radiologist", "Palliative Care Specialist"]

/-- The coercion of `classifySymptomWithGpt` (holistic.js 1365-1368): anything
not matching the list case-insensitively becomes `"General Physician"`. -/
def coerceSpecialty (s : String) : String :=
  if POSSIBLE_SPECIALTIES.any (fun p => jsToLower p == jsToLower s) then s
  else "General Physician"

/-- `classifySymptomWithGpt(symptomLine)` (holistic.js 1324-1375): a thrown
call yields `"General Physician"`, otherwise the trimmed content (empty when no
choice) is coerced against the specialty list. -/
def classifySymptomWithGpt (o : LlmOutcome) : String :=
  match o with
  | .fail => "General Physician"
  | .noChoice => coerceSpecialty ""
  | .ok c => coerceSpecialty (jsTrim c)

/-- JS `userSymptom.split(/(\.|,|\n)/)` (holistic.js 1292-1295): split on
period/comma/newline, keeping the captured delimiters in the result. -/
def splitKeepDelims (acc : List Char) : List Char → List String
  | [] => [⟨acc.reverse⟩]
  | c :: t =>
    if c == '.' || c == ',' || c == '\n' then
      ⟨acc.reverse⟩ :: String.singleton c :: splitKeepDelims [] t
    else splitKeepDelims (c :: acc) t

/-- One `partialMsg` of `symptomAssessmentImpl` (holistic.js 1302-1312). -/
def symptomPartialMsg (line gptSpecialty : String) (docList : List Doctor) : String :=
  let base := s!"*Symptom*: \"{line}\"\nLikely specialty: {gptSpecialty}.\nDisclaimer: This is basic guidance, not a formal diagnosis. Please consult in person for serious concerns."
  if decide (docList.length > 0) then
    docList.foldl
      (fun acc d =>
        let dn := d.Name
        let spx := jsJoin ", " d.Specialization
        acc ++ s!"\n*{dn}* (Specialization: {spx})")
      (base ++ "\n*Possible doctors* matching that specialty:")
  else
    base ++ s!"\n[No specific doctor found for specialty \"{gptSpecialty}\" - kindly see a general physician.]"

/-- `symptomAssessmentImpl(userSymptom, orgId)` (holistic.js 1289-1322): per
fragment, one classifier LLM call and a fuzzy doctor lookup; the fragments'
messages are joined and a closing prompt appended. -/
def symptomStep (o : Oracles) (orgId : String)
    (acc : List String × Store) (line : String) : List String × Store :=
  let s1 := { acc.2 with llmCalls := acc.2.llmCalls + 1 }
  let gptSpecialty := classifySymptomWithGpt (o.classify line)
  let docList := findDoctorsByFuzzySpecialty gptSpecialty orgId s1.doctors
  (acc.1 ++ [symptomPartialMsg line gptSpecialty docList], s1)

def symptomAssessmentImpl (st : Store) (userSymptom orgId : String)
    (o : Oracles) : String × Store :=
  let lines := ((splitKeepDelims [] userSymptom.data).map jsTrim).filter
    fun x => !(x == "") && decide (x.length > 2)
  let res := lines.foldl (symptomStep o orgId) ([], st)
  let finalCombined := jsJoin "\n\n" res.1
  (finalCombined ++ "\n\nWould you like to book an appointment with any of these doctors or ask more questions? \nIf it feels severe, please see a physician immediately.", res.2)

/-- `appointmentFlowImpl(action, userPhone, orgId)` (holistic.js 914-927). -/
def appointmentFlowImpl (st : Store) (action : Option String)
    (userPhone orgId : String) : String × Store :=
  match action with
  | some a =>
    if a == "new" then ("Appointment form sent.", sendAppointmentFlow st userPhone orgId)
    else if a == "reschedule" then ("Rescheduling placeholder. Not implemented.", st)
    else if a == "cancel" then ("Cancellation placeholder. Not implemented.", st)
    else ("Unknown appointment action => new, reschedule, cancel only.", st)
  | none => ("Unknown appointment action => new, reschedule, cancel only.", st)

/-- `supportFlowImpl(department, userPhone, orgId)` (holistic.js 1096-1100). -/
def supportFlowImpl (st : Store) (userPhone orgId : String) : String × Store :=
  ("Support form sent.", sendSupportTemplate st userPhone orgId)

/-- `handleLocalFunctionCall(name, args, fromPhone, userId, userQuery, orgId)`
(holistic.js 1533-1557), with the two knowledge-lookup LLM invocations counted
on the effect log. -/
def handleLocalFunctionCall (st : Store) (name : String) (args : FnArgs)
    (fromPhone orgId : String) (o : Oracles) : String × Store :=
  let orgConfig := findOrg st orgId
  let orgNameD := match orgConfig with
    | some org => if org.orgName == "" then orgId else org.orgName
    | none => orgId
  if name == "appointment_flow" then appointmentFlowImpl st args.action fromPhone orgId
  else if name == "support_flow" then supportFlowImpl st fromPhone orgId
  else if name == "knowledge_lookup" then
    let r := knowledgeLookupImpl (args.userQuery.getD "") (loadKnowledgeBase st orgId)
      orgNameD o.refine o.fullKb
    let extra := (if r.refineCalled then 1 else 0) + (if r.fullCalled then 1 else 0)
    (r.answer, { st with llmCalls := st.llmCalls + extra })
  else if name == "small_talk" then (smallTalkImpl orgId orgConfig, st)
  else if name == "symptom_assessment" then
    symptomAssessmentImpl st (args.userSymptom.getD "") orgId o
  else (s!"Kindly only ask anything related to {orgNameD}.", st)

/-- `getSystemMessage(orgConfig)` (holistic.js 1573-1585). -/
def getSystemMessage (org : Organisation) : Turn :=
  let orgName := org.orgName
  { role := "system",
    content := s!"\nYou are {orgName}'s Chatbot in English. \nWe've replaced the old knowledge lookup with substring search + \na fallback GPT pass over the entire knowledge base if no substring found. \nWe also use GPT for symptom classification. \nNo other flows changed. \nRespond in a natural, friendly, and helpful manner representing {orgName}.\n" }

/-- The BotMode / AI portion of the webhook text branch (holistic.js
1864-1926): with BotMode off, acknowledge without any further effect; else
seed the system turn if absent, append the user turn, make the LLM call, run
any selected function, persist the turn list, unwrap a JSON `reply` field and
send/record the outbound reply. -/
def aiTail (st : Store) (id : Nat) (fromUser orgId : String) (org : Organisation)
    (userText : String) (o : Oracles) : Store × Nat :=
  let pocData := st.pocs id
  let botMode := match pocData with
    | some p => p.BotMode
    | none => true
  if !botMode then (st, 200)
  else
    let messages0 := match pocData with
      | some p => p.chatState
      | none => []
    let messages1 :=
      if messages0.any (fun m => m.role == "system") then messages0
      else getSystemMessage org :: messages0
    let messages2 := messages1 ++ [{ role := "user", content := userText }]
    let st1 := { st with llmCalls := st.llmCalls + 1 }
    match o.choice with
    | .noChoice => (st1, 200)
    | .funCall name args =>
      let rs := match args with
        | none => ("Error parsing function arguments.", st1)
        | some a => handleLocalFunctionCall st1 name a fromUser orgId o
      let messages3 := messages2 ++ [{ role := "assistant", content := rs.1 }]
      let st3 := modifyPoC rs.2 id fun p => { p with chatState := messages3 }
      let finalReply := match o.jsonReply rs.1 with
        | some r => r
        | none => rs.1
      let st4 := sendWhatsAppMessage st3 fromUser finalReply orgId
      let st5 := saveChatToPoC st4 id "outbound" org.whatsappPhoneId fromUser "text" finalReply
      (st5, 200)
    | .reply content =>
      let messages3 := messages2 ++ [{ role := "assistant", content := content }]
      let st3 := modifyPoC st1 id fun p => { p with chatState := messages3 }
      let finalReply := match o.jsonReply content with
        | some r => r
        | none => content
      let st4 := sendWhatsAppMessage st3 fromUser finalReply orgId
      let st5 := saveChatToPoC st4 id "outbound" org.whatsappPhoneId fromUser "text" finalReply
      (st5, 200)

/-- The `"New message from ..."` notification step of the text branch
(holistic.js 1830-1843): only for texts that are not check-in commands and
longer than 10 characters, and only when the organization document exists. -/
def notifyIncomingMessage (st : Store) (id : Nat) (fromUser orgId userText : String) : Store :=
  if !(jsStartsWith userText "Checkin:") && decide (userText.length > 10) then
    match findOrg st orgId with
    | some _ =>
      let userName := match st.pocs id with
        | some p => if p.Name == "" then "User" else p.Name
        | none => "User"
      let shortText := if userText.length > 30 then jsTake userText 30 ++ "..." else userText
      addNotification st orgId fromUser s!"New message from {userName}: \"{shortText}\"" "Message"
    | none => st
  else st

/-- The text-message branch of `POST /webhook` (holistic.js 1824-1927), after
the contact reference has been obtained: save the inbound message, maybe emit
the `Message` notification, run the `"Checkin:"` shortcut, else fall through to
the BotMode/AI tail.  The returned number is the HTTP status. -/
def handleTextBranch (st : Store) (id : Nat) (fromUser orgId : String)
    (org : Organisation) (userText : String) (o : Oracles) : Store × Nat :=
  let st1 := saveChatToPoC st id "inbound" fromUser org.whatsappPhoneId "text" userText
  let st2 := notifyIncomingMessage st1 id fromUser orgId userText
  if jsStartsWith userText "Checkin:" then
    let checkVal := (jsSplit userText ':').getD 1 ""
    if jsTrim checkVal == orgId then
      let st3 := createCheckinDoc st2 id fromUser orgId
      let checkAck := "Welcome to " ++ org.orgName ++ "! Check-in recorded. Please proceed!"
      let st4 := sendWhatsAppMessage st3 fromUser checkAck orgId
      let st5 := saveChatToPoC st4 id "outbound" org.whatsappPhoneId fromUser "text" checkAck
      (st5, 200)
    else aiTail st2 id fromUser orgId org userText o
  else aiTail st2 id fromUser orgId org userText o

/-- End-to-end handling of one inbound plain-text webhook delivery
(holistic.js 1614-1935, text path): resolve the organization configuration
(404 when absent, 200-and-drop when billing-inactive), get or create the
contact, then run the text branch. -/
def webhookTextMessage (st : Store) (fromUser contactName userText orgId : String)
    (o : Oracles) : Store × Nat :=
  match findOrg st orgId with
  | none => (st, 404)
  | some org =>
    if !org.billingActive then (st, 200)
    else
      let r := getOrCreatePoCByPhone fromUser contactName orgId st
      handleTextBranch r.2 r.1 fromUser orgId org userText o

/-! ## Basic facts about the operations -/

theorem modifyPoC_self (st : Store) (id : Nat) (f : PoC → PoC) :
    (modifyPoC st id f).pocs id = (st.pocs id).map f := by
  simp [modifyPoC]

theorem modifyPoC_other (st : Store) (id j : Nat) (f : PoC → PoC) (h : j ≠ id) :
    (modifyPoC st id f).pocs j = st.pocs j := by
  simp [modifyPoC, Function.update_noteq h]

/-- A successful `findPoC` lookup returns a document matching both keys of the
query (`Phone` and `addedBy`), with an allocated id. -/
theorem findPoC_spec {st : Store} {phone orgId : String} {id : Nat}
    (h : findPoC st phone orgId = some id) :
    id < st.nextId ∧ ∃ p, st.pocs id = some p ∧ p.Phone = phone ∧ p.addedBy = orgId := by
  have hmem := List.mem_of_find?_eq_some h
  have hp := List.find?_some h
  refine ⟨List.mem_range.mp hmem, ?_⟩
  cases hpc : st.pocs id with
  | none => rw [hpc] at hp; exact absurd hp (by simp)
  | some p =>
    rw [hpc] at hp
    simp only [Bool.and_eq_true, beq_iff_eq] at hp
    exact ⟨p, rfl, hp.1, hp.2⟩

/-- If no allocated document matches, `findPoC` finds nothing. -/
theorem findPoC_eq_none {st : Store} {phone orgId : String}
    (h : ∀ i p, st.pocs i = some p → ¬(p.Phone = phone ∧ p.addedBy = orgId)) :
    findPoC st phone orgId = none := by
  rw [findPoC, List.find?_eq_none]
  intro i _
  cases hpc : st.pocs i with
  | none => simp
  | some p =>
    simp only [Bool.and_eq_true, beq_iff_eq]
    intro hc
    exact h i p hpc hc

theorem generateId_spec (st : Store) (len : Nat) :
    (generateId st len).1.length = len ∧ ∀ c ∈ (generateId st len).1.data, c.isAlphanum = true := by
  constructor
  · simp [generateId, String.length]
  · intro c hc
    simp only [generateId, List.mem_map, List.mem_range] at hc
    obtain ⟨k, _, hk⟩ := hc
    have h62 : idAlphabet.length = 62 := by decide
    have hlt : st.rand (st.randPos + k) % 62 < idAlphabet.length := by
      rw [h62]; exact Nat.mod_lt _ (by norm_num)
    rw [← hk, List.getD_eq_getElem _ _ hlt]
    have hall : idAlphabet.all Char.isAlphanum = true := by decide
    exact List.all_eq_true.mp hall _ (List.getElem_mem hlt)

theorem containsSeq_of_isPrefixOf {n h : List Char} (hp : n.isPrefixOf h = true) :
    containsSeq n h = true := by
  cases h <;> simp [containsSeq, hp]

theorem containsSeq_append (n pre post : List Char) :
    containsSeq n (pre ++ (n ++ post)) = true := by
  induction pre with
  | nil =>
    exact containsSeq_of_isPrefixOf (List.isPrefixOf_iff_prefix.mpr (List.prefix_append n post))
  | cons c rest ih =>
    rw [List.cons_append]
    have hstep : containsSeq n (c :: (rest ++ (n ++ post)))
        = (n.isPrefixOf (c :: (rest ++ (n ++ post))) || containsSeq n (rest ++ (n ++ post))) := rfl
    rw [hstep, ih, Bool.or_true]

/-- A string embedded between two others is found by the JS `includes` check. -/
theorem jsIncludes_middle (a b c : String) : jsIncludes (a ++ b ++ c) b = true := by
  show containsSeq b.data (a ++ b ++ c).data = true
  rw [String.data_append, String.data_append, List.append_assoc]
  exact containsSeq_append b.data a.data c.data

theorem updateFirst_of_find?_none {α : Type} (p : α → Bool) (f : α → α) :
    ∀ l : List α, l.find? p = none → updateFirst p f l = l := by
  intro l
  induction l with
  | nil => intro _; rfl
  | cons x xs ih =>
    intro h
    by_cases hx : p x = true
    · rw [List.find?_cons_of_pos _ hx] at h; exact absurd h (by simp)
    · rw [List.find?_cons_of_neg _ hx] at h
      rw [updateFirst, if_neg hx, ih h]

theorem updateFirst_spec {α : Type} (p : α → Bool) (f : α → α) :
    ∀ (l : List α) (a : α), l.find? p = some a →
      p a = true ∧ ∃ k : Nat, l[k]? = some a ∧ (updateFirst p f l)[k]? = some (f a) ∧
        ∀ j : Nat, j ≠ k → (updateFirst p f l)[j]? = l[j]? := by
  intro l
  induction l with
  | nil => intro a h; exact absurd h (by simp)
  | cons x xs ih =>
    intro a h
    by_cases hx : p x = true
    · rw [List.find?_cons_of_pos _ hx] at h
      have hxa : x = a := by injection h
      subst hxa
      refine ⟨hx, 0, by simp, ?_, ?_⟩
      · rw [updateFirst, if_pos hx]; simp
      · intro j hj
        rw [updateFirst, if_pos hx]
        cases j with
        | zero => exact absurd rfl hj
        | succ m => simp
    · rw [List.find?_cons_of_neg _ hx] at h
      obtain ⟨hpa, k, h1, h2, h3⟩ := ih a h
      refine ⟨hpa, k + 1, by simpa using h1, ?_, ?_⟩
      · rw [updateFirst, if_neg hx]; simpa using h2
      · intro j hj
        rw [updateFirst, if_neg hx]
        cases j with
        | zero => simp
        | succ m =>
          have hm : m ≠ k := fun hc => hj (by rw [hc])
          simpa using h3 m hm

theorem updateFirst_length {α : Type} (p : α → Bool) (f : α → α) :
    ∀ l : List α, (updateFirst p f l).length = l.length := by
  intro l
  induction l with
  | nil => rfl
  | cons x xs ih =>
    rw [updateFirst]
    by_cases hx : p x = true
    · rw [if_pos hx]; simp
    · rw [if_neg hx]; simp [ih]

/-! ## Claim theorems -/

/-- C3: `levenshteinDistance` implements the classic dynamic-programming edit
distance over the `(|a|+1) × (|b|+1)` table with unit
insertion/deletion/substitution costs and base cases `matrix[i][0] = i`,
`matrix[0][j] = j`;  `editDistance("Cardiologist","Cardiologist") = 0`,
`editDistance("Cardiologist","Cardiologyst") ≤ 3` (hence a fuzzy match),
`editDistance("Dermatologist","Neurologist") > 3` with neither string a
substring of the other (hence no match); and in general a doctor specialty
matches the classified specialty (both normalized by lower-casing, trimming and
quote-stripping) iff the edit distance is ≤ 3 or either string contains the
other. -/
theorem C3_fuzzy_specialty_matching :
    (∀ a b : String, levenshteinDistance a b = levMatrixCell a.data b.data a.data.length b.data.length)
    ∧ (∀ as bs : List Char, ∀ i : Nat, levMatrixCell as bs i 0 = i)
    ∧ (∀ as bs : List Char, ∀ j : Nat, levMatrixCell as bs 0 j = j)
    ∧ (∀ as bs : List Char, ∀ i j : Nat,
        levMatrixCell as bs (i + 1) (j + 1) =
          if as.getD i ' ' == bs.getD j ' ' then levMatrixCell as bs i j
          else
            min (min (levMatrixCell as bs i (j + 1) + 1) (levMatrixCell as bs (i + 1) j + 1))
              (levMatrixCell as bs i j + 1))
    ∧ levenshteinDistance "Cardiologist" "Cardiologist" = 0
    ∧ levenshteinDistance "Cardiologist" "Cardiologyst" ≤ 3
    ∧ 3 < levenshteinDistance "Dermatologist" "Neurologist"
    ∧ jsIncludes "Dermatologist" "Neurologist" = false
    ∧ jsIncludes "Neurologist" "Dermatologist" = false
    ∧ specialtyMatches (normalizeSpecialty "Cardiologist") "Cardiologyst" = true
    ∧ specialtyMatches (normalizeSpecialty "Neurologist") "Dermatologist" = false
    ∧ (∀ target spec : String,
        specialtyMatches target spec =
          (decide (levenshteinDistance (normalizeSpecialty spec) target ≤ 3)
            || (jsIncludes (normalizeSpecialty spec) target
                || jsIncludes target (normalizeSpecialty spec))))
    ∧ (∀ (specialty orgId : String) (doctors : List Doctor) (d : Doctor),
        d ∈ findDoctorsByFuzzySpecialty specialty orgId doctors ↔
          d ∈ doctors ∧
            (d.OrgID == orgId
              && d.Specialization.any (specialtyMatches (normalizeSpecialty specialty))) = true) :=
  ⟨fun a b => levenshteinDistanceL_eq_matrix a.data b.data,
   levMatrixCell_i_zero, levMatrixCell_zero_j, levMatrixCell_succ_succ,
   by decide, by decide, by decide, by decide, by decide, by decide, by decide,
   fun _ _ => rfl,
   fun _ _ _ _ => List.mem_filter⟩

/-- C9 counterexample: for the value `"0_Very_High"` (index `0`, value
`"Very_High"` containing an underscore) the decoders return only `"Very"`, the
segment before the second underscore — not the entire token after the first
underscore. -/
theorem C9_counterexample :
    parseNumberFromLabel (some "0_Very_High") "Unknown" = "Very"
    ∧ parseNumberFromLabel (some "0_Very_High") "Unknown" ≠ "Very_High"
    ∧ parseYesNo (some "0_Very_High") "No" = "Very"
    ∧ parseYesNo (some "0_Very_High") "No" ≠ "Very_High" := by
  refine ⟨?_, ?_, ?_, ?_⟩ <;> decide

/-- C9 (amended): for a labeled value split on underscores into at least two
parts, `parseNumberFromLabel` and `parseYesNo` return the second part — the
segment between the first and the second underscore (which is the entire
`<value>` exactly when `<value>` itself contains no underscore); a value with
no underscore is returned unchanged, and a missing or empty value yields the
fallback. -/
theorem C9_label_decoding :
    (∀ fb : String, parseNumberFromLabel none fb = fb ∧ parseYesNo none fb = fb)
    ∧ (∀ fb : String, parseNumberFromLabel (some "") fb = fb ∧ parseYesNo (some "") fb = fb)
    ∧ (∀ v fb : String, v ≠ "" → (jsSplit v '_').length ≤ 1 →
        parseNumberFromLabel (some v) fb = v ∧ parseYesNo (some v) fb = v)
    ∧ (∀ v fb p0 p1 : String, ∀ rest : List String, v ≠ "" →
        jsSplit v '_' = p0 :: p1 :: rest →
        parseNumberFromLabel (some v) fb = p1 ∧ parseYesNo (some v) fb = p1)
    ∧ parseNumberFromLabel (some "0_Male") "Unknown" = "Male"
    ∧ parseYesNo (some "0_Yes") "No" = "Yes" := by
  refine ⟨fun fb => ⟨rfl, rfl⟩, fun fb => ⟨rfl, rfl⟩, ?_, ?_, by decide, by decide⟩
  · intro v fb hv hlen
    have hvb : (v == "") = false := by simpa using hv
    constructor <;>
      · simp only [parseNumberFromLabel, parseYesNo, hvb, Bool.false_eq_true, if_false]
        rw [if_neg (by omega)]
  · intro v fb p0 p1 rest hv hsplit
    have hvb : (v == "") = false := by simpa using hv
    constructor <;>
      · simp only [parseNumberFromLabel, parseYesNo, hvb, Bool.false_eq_true, if_false, hsplit]
        rw [if_pos (by simp)]
        rfl

/-- C9 witness: concrete instantiations of the amended decoding rules. -/
theorem C9_label_decoding_witness :
    parseNumberFromLabel (some "High") "Unknown" = "High"
    ∧ parseNumberFromLabel (some "2_High") "Unknown" = "High" :=
  ⟨(C9_label_decoding.2.2.1 "High" "Unknown" (by decide) (by decide)).1,
   (C9_label_decoding.2.2.2.1 "2_High" "Unknown" "2" "High" [] (by decide) (by decide)).1⟩

/-- C5 counterexample: a payload that contains the `"screen_0_Full_Name_0"`
key (with the empty-string value, which is JS-falsy) together with the
feedback marker key is routed to feedback, not to registration. -/
theorem C5_counterexample :
    ({ fullName0 := some "", choose0 := some "0_Yes" } : NfmFlowData).fullName0.isSome = true
    ∧ routeNfmReply { fullName0 := some "", choose0 := some "0_Yes" } = FormRoute.feedback
    ∧ routeNfmReply { fullName0 := some "", choose0 := some "0_Yes" } ≠ FormRoute.registration := by
  refine ⟨rfl, by decide, by decide⟩

/-- C5 (amended): the `nfm_reply` dispatch checks the marker keys in the fixed
order registration, feedback, support, with appointment as the default, each
test being JS truthiness (key present with a non-empty value); any payload
whose `"screen_0_Full_Name_0"` value is non-empty is routed to registration
even when the feedback or support markers are also present. -/
theorem C5_form_dispatch (fd : NfmFlowData) :
    (truthy fd.fullName0 = true → routeNfmReply fd = FormRoute.registration)
    ∧ (truthy fd.fullName0 = false → truthy fd.choose0 = true →
        routeNfmReply fd = FormRoute.feedback)
    ∧ (truthy fd.fullName0 = false → truthy fd.choose0 = false →
        truthy fd.descriptionOfIssue2 = true → routeNfmReply fd = FormRoute.support)
    ∧ (truthy fd.fullName0 = false → truthy fd.choose0 = false →
        truthy fd.descriptionOfIssue2 = false → routeNfmReply fd = FormRoute.appointment) := by
  refine ⟨?_, ?_, ?_, ?_⟩
  · intro h1; simp [routeNfmReply, h1]
  · intro h1 h2; simp [routeNfmReply, h1, h2]
  · intro h1 h2 h3; simp [routeNfmReply, h1, h2, h3]
  · intro h1 h2 h3; simp [routeNfmReply, h1, h2, h3]

/-- C5 witness: a payload carrying a non-empty full name together with both
other marker keys is routed to registration. -/
theorem C5_form_dispatch_witness :
    routeNfmReply { fullName0 := some "John Doe", choose0 := some "0_Yes",
                    descriptionOfIssue2 := some "broken door" } = FormRoute.registration :=
  (C5_form_dispatch _).1 (by decide)

/-- C6: the knowledge lookup first runs the case-insensitive substring tier
over every line; when at least one line matches it returns the LLM summary of
exactly the matched lines — falling back to the matched lines joined together
when that call fails or yields no choice — and never invokes the whole-text
fallback; only when no line matches is the whole text passed to the LLM, and a
fallback reply containing one of the fixed "no relevant info" phrases or
shorter than 4 characters yields the fixed no-info message naming the tenant. -/
theorem C6_knowledge_lookup_tiers (userQuery knowledgeText orgName : String)
    (refineO fullO : LlmOutcome)
    (hload : (knowledgeText == "" || jsStartsWith knowledgeText "Error"
        || jsStartsWith knowledgeText "No knowledge") = false) :
    (((jsSplit knowledgeText '\n').filter
        (fun line => jsIncludes (jsToLower line) (jsToLower userQuery))).length > 0 →
      (knowledgeLookupImpl userQuery knowledgeText orgName refineO fullO).refineCalled = true
      ∧ (knowledgeLookupImpl userQuery knowledgeText orgName refineO fullO).fullCalled = false
      ∧ (knowledgeLookupImpl userQuery knowledgeText orgName refineO fullO).answer
          = refineKnowledgeWithGpt
              ((jsSplit knowledgeText '\n').filter
                (fun line => jsIncludes (jsToLower line) (jsToLower userQuery))) refineO
      ∧ (refineO = LlmOutcome.fail →
          (knowledgeLookupImpl userQuery knowledgeText orgName refineO fullO).answer
            = jsJoin "\n" ((jsSplit knowledgeText '\n').filter
                (fun line => jsIncludes (jsToLower line) (jsToLower userQuery))))
      ∧ (refineO = LlmOutcome.noChoice →
          (knowledgeLookupImpl userQuery knowledgeText orgName refineO fullO).answer
            = jsJoin "\n" ((jsSplit knowledgeText '\n').filter
                (fun line => jsIncludes (jsToLower line) (jsToLower userQuery)))))
    ∧ ((jsSplit knowledgeText '\n').filter
          (fun line => jsIncludes (jsToLower line) (jsToLower userQuery)) = [] →
        (knowledgeLookupImpl userQuery knowledgeText orgName refineO fullO).fullCalled = true
        ∧ (knowledgeLookupImpl userQuery knowledgeText orgName refineO fullO).refineCalled = false
        ∧ ((jsTrim (checkKnowledgeFullWithGpt fullO)).length > 0 →
            (knowledgeLookupImpl userQuery knowledgeText orgName refineO fullO).answer
              = checkKnowledgeFullWithGpt fullO)
        ∧ ((jsTrim (checkKnowledgeFullWithGpt fullO)).length = 0 →
            (knowledgeLookupImpl userQuery knowledgeText orgName refineO fullO).answer
              = s!"No direct info found in the knowledge base. Please ask more about {orgName}!"))
    ∧ (∀ content : String,
        (jsIncludes (jsToLower (jsTrim content)) "no relevant info" = true
          ∨ jsIncludes (jsToLower (jsTrim content)) "no relevant information" = true
          ∨ jsIncludes (jsToLower (jsTrim content)) "nothing relevant" = true
          ∨ (jsTrim content).length < 4) →
        checkKnowledgeFullWithGpt (LlmOutcome.ok content) = "") := by
  refine ⟨?_, ?_, ?_⟩
  · intro hm
    have e : knowledgeLookupImpl userQuery knowledgeText orgName refineO fullO
        = { answer := refineKnowledgeWithGpt
              ((jsSplit knowledgeText '\n').filter
                (fun line => jsIncludes (jsToLower line) (jsToLower userQuery))) refineO,
            refineCalled := true, fullCalled := false } := by
      simp only [knowledgeLookupImpl, hload, Bool.false_eq_true, if_false, if_pos hm]
    rw [e]
    refine ⟨rfl, rfl, rfl, ?_, ?_⟩
    · intro h; subst h; rfl
    · intro h; subst h; rfl
  · intro hm
    have hlen : ¬(((jsSplit knowledgeText '\n').filter
        (fun line => jsIncludes (jsToLower line) (jsToLower userQuery))).length > 0) := by
      rw [hm]; simp
    refine ⟨?_, ?_, ?_, ?_⟩
    · simp only [knowledgeLookupImpl, hload, Bool.false_eq_true, if_false, if_neg hlen]
      split <;> rfl
    · simp only [knowledgeLookupImpl, hload, Bool.false_eq_true, if_false, if_neg hlen]
      split <;> rfl
    · intro h
      simp only [knowledgeLookupImpl, hload, Bool.false_eq_true, if_false, if_neg hlen]
      rw [if_pos h]
    · intro h
      simp only [knowledgeLookupImpl, hload, Bool.false_eq_true, if_false, if_neg hlen]
      rw [if_neg (by omega)]
  · intro content hc
    simp only [checkKnowledgeFullWithGpt]
    rcases hc with h | h | h | h
    · rw [h]; simp
    · rw [h]; simp
    · rw [h]; simp
    · rw [if_pos (by simp [h])]

/-- C6 witness: a knowledge text containing the line
`"Visiting hours: 9am-5pm"` queried with `"visiting hours"` hits the substring
tier (even with a failing LLM, the raw matched line is returned) and the
whole-text fallback is never invoked. -/
theorem C6_knowledge_lookup_tiers_witness :
    (knowledgeLookupImpl "visiting hours" "Our hospital.\nVisiting hours: 9am-5pm\nContact: 123"
        "Acme" LlmOutcome.fail LlmOutcome.fail).refineCalled = true
    ∧ (knowledgeLookupImpl "visiting hours" "Our hospital.\nVisiting hours: 9am-5pm\nContact: 123"
        "Acme" LlmOutcome.fail LlmOutcome.fail).fullCalled = false
    ∧ (knowledgeLookupImpl "visiting hours" "Our hospital.\nVisiting hours: 9am-5pm\nContact: 123"
        "Acme" LlmOutcome.fail LlmOutcome.fail).answer = "Visiting hours: 9am-5pm" := by
  have h := C6_knowledge_lookup_tiers "visiting hours"
    "Our hospital.\nVisiting hours: 9am-5pm\nContact: 123" "Acme"
    LlmOutcome.fail LlmOutcome.fail (by decide)
  have hm := h.1 (by decide)
  exact ⟨hm.1, hm.2.1, by rw [hm.2.2.2.1 rfl]; decide⟩

/-- The feedback object `updateAppointmentFeedback` builds from a submission
(holistic.js 1503-1510). -/
def submittedFeedback (fd : NfmFlowData) (now : Nat) : Feedback :=
  { Recommend := parseYesNo fd.choose0 "No",
    Comments := fd.leaveA1.getD "",
    Staff_Experience := parseStarRating fd.staffExperience0 "NA",
    Doctor_consultation := parseStarRating fd.doctorConsultation1 "NA",
    Overall_Experience := parseStarRating fd.overallExperience2 "NA",
    submittedAt := now }

/-- C4: feedback is attached exactly to an appointment of the organization
whose stored `FlowToken` equals the submission's `flow_token` field; every
other appointment keeps its feedback; and when no stored appointment matches
(or the organization is unknown) the whole store is returned unchanged — no
appointment modified, no notification created, no error surfaced. -/
theorem C4_feedback_correlation (fd : NfmFlowData) (orgId : String) (st : Store) :
    (findOrg st orgId = none → updateAppointmentFeedback fd orgId st = st)
    ∧ (∀ org : Organisation, findOrg st orgId = some org →
        st.appointments.find?
          (fun a => a.OrgID == orgId && a.FlowToken == fd.flow_token.getD "") = none →
        updateAppointmentFeedback fd orgId st = st)
    ∧ (∀ (org : Organisation) (apt : Appointment), findOrg st orgId = some org →
        st.appointments.find?
          (fun a => a.OrgID == orgId && a.FlowToken == fd.flow_token.getD "") = some apt →
        apt.FlowToken = fd.flow_token.getD ""
        ∧ apt.OrgID = orgId
        ∧ (∃ k : Nat, ∃ fb : Feedback,
            st.appointments[k]? = some apt
            ∧ (updateAppointmentFeedback fd orgId st).appointments[k]?
                = some { apt with feedback := some fb }
            ∧ ∀ j : Nat, j ≠ k →
                (updateAppointmentFeedback fd orgId st).appointments[j]? = st.appointments[j]?)
        ∧ (updateAppointmentFeedback fd orgId st).appointments.length = st.appointments.length
        ∧ (∃ n : Notification, n.event = "Feedback"
            ∧ (updateAppointmentFeedback fd orgId st).notifications = st.notifications ++ [n])
        ∧ (updateAppointmentFeedback fd orgId st).pocs = st.pocs
        ∧ (updateAppointmentFeedback fd orgId st).checkins = st.checkins) := by
  refine ⟨?_, ?_, ?_⟩
  · intro h
    simp only [updateAppointmentFeedback, h]
  · intro org horg hfind
    simp only [updateAppointmentFeedback, horg, hfind]
  · intro org apt horg hfind
    have hspec := updateFirst_spec
      (fun a => a.OrgID == orgId && a.FlowToken == fd.flow_token.getD "")
      (fun (a : Appointment) => { a with feedback := some (submittedFeedback fd st.now) })
      st.appointments apt hfind
    obtain ⟨hpa, k, h1, h2, h3⟩ := hspec
    simp only [Bool.and_eq_true, beq_iff_eq] at hpa
    refine ⟨hpa.2, hpa.1, ?_, ?_, ?_, ?_, ?_⟩
    · refine ⟨k, submittedFeedback fd st.now, h1, ?_, ?_⟩
      · simp only [updateAppointmentFeedback, horg, hfind, addNotification]
        exact h2
      · intro j hj
        simp only [updateAppointmentFeedback, horg, hfind, addNotification]
        exact h3 j hj
    · simp only [updateAppointmentFeedback, horg, hfind, addNotification]
      exact updateFirst_length _ _ _
    · simp only [updateAppointmentFeedback, horg, hfind, addNotification]
      refine ⟨_, ?_, rfl⟩
      rfl
    · simp only [updateAppointmentFeedback, horg, hfind, addNotification]
    · simp only [updateAppointmentFeedback, horg, hfind, addNotification]

/-- A tenant configuration used by concrete witnesses. -/
def orgAcme : Organisation :=
  { OrgID := "Acme", orgName := "Acme Hospital", whatsappPhoneId := "555",
    whatsappToken := "tok", billingActive := true,
    knowledge := "Our hospital.\nVisiting hours: 9am-5pm" }

/-- An appointment awaiting feedback under flow token `"123456"`. -/
def aptW : Appointment :=
  { AppointmentID := "APT-AAAAAAAA", OrgID := "Acme", FlowToken := "123456",
    userPhone := "111", doctorName := "Dr. A", feedback := none }

/-- A store with one organization and one draft appointment. -/
def stApt : Store :=
  { now := 7, nextId := 0, pocs := fun _ => none, orgs := [orgAcme], doctors := [],
    appointments := [aptW], checkins := [], notifications := [], outbound := [],
    llmCalls := 0, rand := fun _ => 0, randPos := 0 }

/-- A feedback submission carrying flow token `"123456"`. -/
def fdMatch : NfmFlowData :=
  { choose0 := some "0_Yes", leaveA1 := some "great", flow_token := some "123456" }

/-- A feedback submission carrying the mismatched flow token `"999999"`. -/
def fdMismatch : NfmFlowData :=
  { choose0 := some "0_Yes", flow_token := some "999999" }

/-- C4 witness: the matching submission attaches feedback to the stored
appointment (token `"123456"`), while the mismatched submission leaves the
store untouched. -/
theorem C4_feedback_correlation_witness :
    updateAppointmentFeedback fdMismatch "Acme" stApt = stApt
    ∧ aptW.FlowToken = (fdMatch.flow_token.getD "")
    ∧ ((updateAppointmentFeedback fdMatch "Acme" stApt).appointments[0]?).map
        (fun a => a.feedback.isSome) = some true := by
  refine ⟨?_, ?_, ?_⟩
  · exact (C4_feedback_correlation fdMismatch "Acme" stApt).2.1 orgAcme (by decide) (by decide)
  · exact ((C4_feedback_correlation fdMatch "Acme" stApt).2.2 orgAcme aptW
      (by decide) (by decide)).1 ▸ rfl
  · obtain ⟨k, fb, h1, h2, _⟩ :=
      ((C4_feedback_correlation fdMatch "Acme" stApt).2.2 orgAcme aptW (by decide) (by decide)).2.2.1
    have hk : k = 0 := by
      by_contra hk
      have : (stApt.appointments[k]?) = none := by
        have : stApt.appointments.length = 1 := by decide
        rw [List.getElem?_eq_none]
        omega
      rw [this] at h1
      exact Option.noConfusion h1
    subst hk
    rw [h2]
    rfl

/-! ## Frame lemmas for the store operations -/

theorem notifyNewUser_frame (st : Store) (a b c : String) :
    (notifyNewUser st a b c).pocs = st.pocs
    ∧ (notifyNewUser st a b c).nextId = st.nextId
    ∧ (notifyNewUser st a b c).now = st.now
    ∧ (notifyNewUser st a b c).outbound = st.outbound
    ∧ (notifyNewUser st a b c).checkins = st.checkins
    ∧ (notifyNewUser st a b c).llmCalls = st.llmCalls := by
  unfold notifyNewUser
  split <;> exact ⟨rfl, rfl, rfl, rfl, rfl, rfl⟩

theorem sendWelcomeTemplate_frame (st : Store) (a b c : String) :
    (sendWelcomeTemplate st a b c).pocs = st.pocs
    ∧ (sendWelcomeTemplate st a b c).nextId = st.nextId
    ∧ (sendWelcomeTemplate st a b c).now = st.now
    ∧ (sendWelcomeTemplate st a b c).notifications = st.notifications
    ∧ (sendWelcomeTemplate st a b c).checkins = st.checkins
    ∧ (sendWelcomeTemplate st a b c).llmCalls = st.llmCalls := by
  unfold sendWelcomeTemplate
  split <;> exact ⟨rfl, rfl, rfl, rfl, rfl, rfl⟩

theorem sendSupportTemplate_frame (st : Store) (a b : String) :
    (sendSupportTemplate st a b).pocs = st.pocs
    ∧ (sendSupportTemplate st a b).nextId = st.nextId
    ∧ (sendSupportTemplate st a b).now = st.now
    ∧ (sendSupportTemplate st a b).notifications = st.notifications
    ∧ (sendSupportTemplate st a b).checkins = st.checkins
    ∧ (sendSupportTemplate st a b).llmCalls = st.llmCalls := by
  unfold sendSupportTemplate
  split <;> exact ⟨rfl, rfl, rfl, rfl, rfl, rfl⟩

theorem sendAppointmentFlow_frame (st : Store) (a b : String) :
    (sendAppointmentFlow st a b).pocs = st.pocs
    ∧ (sendAppointmentFlow st a b).nextId = st.nextId
    ∧ (sendAppointmentFlow st a b).now = st.now
    ∧ (sendAppointmentFlow st a b).notifications = st.notifications
    ∧ (sendAppointmentFlow st a b).checkins = st.checkins
    ∧ (sendAppointmentFlow st a b).llmCalls = st.llmCalls := by
  unfold sendAppointmentFlow
  split <;> exact ⟨rfl, rfl, rfl, rfl, rfl, rfl⟩

theorem sendWhatsAppMessage_frame (st : Store) (a b c : String) :
    (sendWhatsAppMessage st a b c).pocs = st.pocs
    ∧ (sendWhatsAppMessage st a b c).nextId = st.nextId
    ∧ (sendWhatsAppMessage st a b c).now = st.now
    ∧ (sendWhatsAppMessage st a b c).notifications = st.notifications
    ∧ (sendWhatsAppMessage st a b c).checkins = st.checkins
    ∧ (sendWhatsAppMessage st a b c).llmCalls = st.llmCalls := by
  unfold sendWhatsAppMessage
  split
  · exact ⟨rfl, rfl, rfl, rfl, rfl, rfl⟩
  · split <;> exact ⟨rfl, rfl, rfl, rfl, rfl, rfl⟩

/-- Everything `createNewPoC` guarantees: the returned reference is the fresh
id, the created document carries exactly the creating tenant, other documents
are untouched, and one welcome template is the only outbound traffic. -/
theorem createNewPoC_spec (phone contactName orgId : String) (st : Store) :
    (createNewPoC phone contactName orgId st).1 = st.nextId
    ∧ (createNewPoC phone contactName orgId st).2.nextId = st.nextId + 1
    ∧ (∃ q : PoC, (createNewPoC phone contactName orgId st).2.pocs st.nextId = some q
        ∧ q.Phone = phone ∧ q.addedBy = orgId ∧ q.BotMode = true ∧ q.registered = false
        ∧ q.chat = [])
    ∧ (∀ j : Nat, j ≠ st.nextId →
        (createNewPoC phone contactName orgId st).2.pocs j = st.pocs j)
    ∧ (createNewPoC phone contactName orgId st).2.now = st.now
    ∧ (createNewPoC phone contactName orgId st).2.checkins = st.checkins
    ∧ (createNewPoC phone contactName orgId st).2.llmCalls = st.llmCalls := by
  refine ⟨rfl, ?_, ?_, ?_, ?_, ?_, ?_⟩
  · show (sendWelcomeTemplate _ _ _ _).nextId = st.nextId + 1
    rw [(sendWelcomeTemplate_frame _ _ _ _).2.1, (notifyNewUser_frame _ _ _ _).2.1]
  · refine ⟨{ Name := contactName, Phone := phone, BotMode := true, addedBy := orgId,
              registered := false, Created_Timestamp := st.now, lastSeen := st.now, chat := [],
              patients := [] ++ [⟨contactName, "NA", 0,
                if jsToLower (jsTrim contactName) == jsToLower (jsTrim contactName) then "Self"
                else ""⟩],
              chatState := [] }, ?_, rfl, rfl, rfl, rfl, rfl⟩
    show (modifyPoC _ _ _).pocs st.nextId = _
    rw [modifyPoC_self, (sendWelcomeTemplate_frame _ _ _ _).1, (notifyNewUser_frame _ _ _ _).1]
    show (Function.update st.pocs st.nextId _ st.nextId).map _ = _
    rw [Function.update_same]
    rfl
  · intro j hj
    show (modifyPoC _ _ _).pocs j = st.pocs j
    rw [modifyPoC_other _ _ _ _ hj, (sendWelcomeTemplate_frame _ _ _ _).1,
      (notifyNewUser_frame _ _ _ _).1]
    exact Function.update_noteq hj _ _
  · show (sendWelcomeTemplate _ _ _ _).now = st.now
    rw [(sendWelcomeTemplate_frame _ _ _ _).2.2.1, (notifyNewUser_frame _ _ _ _).2.2.1]
  · show (sendWelcomeTemplate _ _ _ _).checkins = st.checkins
    rw [(sendWelcomeTemplate_frame _ _ _ _).2.2.2.2.1, (notifyNewUser_frame _ _ _ _).2.2.2.2.1]
  · show (sendWelcomeTemplate _ _ _ _).llmCalls = st.llmCalls
    rw [(sendWelcomeTemplate_frame _ _ _ _).2.2.2.2.2, (notifyNewUser_frame _ _ _ _).2.2.2.2.2]


/-- After any call to `getOrCreatePoCByPhone`, the returned reference points
at a document matching the query pair. -/
theorem getOrCreate_result_spec (phone contactName orgId : String) (st : Store) :
    ∃ p : PoC, (getOrCreatePoCByPhone phone contactName orgId st).2.pocs
        (getOrCreatePoCByPhone phone contactName orgId st).1 = some p
      ∧ p.Phone = phone ∧ p.addedBy = orgId := by
  cases hf : findPoC st phone orgId with
  | some id =>
    have e : getOrCreatePoCByPhone phone contactName orgId st
        = (id, updatePoCLastSeen st id) := by
      simp only [getOrCreatePoCByPhone, hf]
    rw [e]
    obtain ⟨_, p, hp, hph, ha⟩ := findPoC_spec hf
    refine ⟨{ p with lastSeen := st.now }, ?_, hph, ha⟩
    show (modifyPoC st id _).pocs id = _
    rw [modifyPoC_self, hp]
    rfl
  | none =>
    have e : getOrCreatePoCByPhone phone contactName orgId st
        = createNewPoC phone contactName orgId st := by
      simp only [getOrCreatePoCByPhone, hf]
    rw [e]
    obtain ⟨q, hq, hph, ha, _⟩ := (createNewPoC_spec phone contactName orgId st).2.2.1
    rw [(createNewPoC_spec phone contactName orgId st).1]
    exact ⟨q, hq, hph, ha⟩

/-- The reference a call returns is below the allocator of its output state. -/
theorem getOrCreate_lt_nextId (phone contactName orgId : String) (st : Store) :
    (getOrCreatePoCByPhone phone contactName orgId st).1
      < (getOrCreatePoCByPhone phone contactName orgId st).2.nextId := by
  cases hf : findPoC st phone orgId with
  | some id =>
    have e : getOrCreatePoCByPhone phone contactName orgId st
        = (id, updatePoCLastSeen st id) := by
      simp only [getOrCreatePoCByPhone, hf]
    rw [e]
    exact (findPoC_spec hf).1
  | none =>
    have e : getOrCreatePoCByPhone phone contactName orgId st
        = createNewPoC phone contactName orgId st := by
      simp only [getOrCreatePoCByPhone, hf]
    rw [e, (createNewPoC_spec phone contactName orgId st).1,
      (createNewPoC_spec phone contactName orgId st).2.1]
    omega

/-- A call to `getOrCreatePoCByPhone` mutates no document other than the one
it returns. -/
theorem getOrCreate_untouched (phone contactName orgId : String) (st : Store)
    (j : Nat) (hj : j ≠ (getOrCreatePoCByPhone phone contactName orgId st).1) :
    (getOrCreatePoCByPhone phone contactName orgId st).2.pocs j = st.pocs j := by
  cases hf : findPoC st phone orgId with
  | some id =>
    have e : getOrCreatePoCByPhone phone contactName orgId st
        = (id, updatePoCLastSeen st id) := by
      simp only [getOrCreatePoCByPhone, hf]
    rw [e] at hj ⊢
    exact modifyPoC_other _ _ _ _ hj
  | none =>
    have e : getOrCreatePoCByPhone phone contactName orgId st
        = createNewPoC phone contactName orgId st := by
      simp only [getOrCreatePoCByPhone, hf]
    rw [e] at hj ⊢
    rw [(createNewPoC_spec phone contactName orgId st).1] at hj
    exact (createNewPoC_spec phone contactName orgId st).2.2.2.1 j hj

/-- Any document a call brings into existence carries the call's tenant id. -/
theorem getOrCreate_created_scoped (phone contactName orgId : String) (st : Store) :
    ∀ (j : Nat) (q : PoC), st.pocs j = none →
      (getOrCreatePoCByPhone phone contactName orgId st).2.pocs j = some q →
      q.addedBy = orgId := by
  intro j q hnone hsome
  by_cases hj : j = (getOrCreatePoCByPhone phone contactName orgId st).1
  · obtain ⟨p, hp, _, ha⟩ := getOrCreate_result_spec phone contactName orgId st
    rw [← hj] at hp
    rw [hp] at hsome
    have : p = q := by injection hsome
    subst this
    exact ha
  · rw [getOrCreate_untouched phone contactName orgId st j hj] at hsome
    rw [hnone] at hsome
    exact Option.noConfusion hsome

/-- C2: when a contact for `(phone, tenant)` already exists, a further call to
`getOrCreatePoCByPhone` returns that same existing contact's reference, creates
no contact document (the id allocator and the populated ids are unchanged),
creates no default patient, emits no notification, sends no welcome template
(no outbound traffic at all), and only updates last-seen. -/
theorem C2_get_or_create_idempotent (phone contactName orgId : String) (st : Store)
    (id : Nat) (h : findPoC st phone orgId = some id) :
    (getOrCreatePoCByPhone phone contactName orgId st).1 = id
    ∧ (getOrCreatePoCByPhone phone contactName orgId st).2.nextId = st.nextId
    ∧ (∀ j : Nat, ((getOrCreatePoCByPhone phone contactName orgId st).2.pocs j).isSome
        = (st.pocs j).isSome)
    ∧ (∀ (j : Nat) (p : PoC), st.pocs j = some p →
        ∃ q : PoC, (getOrCreatePoCByPhone phone contactName orgId st).2.pocs j = some q
          ∧ q.Name = p.Name ∧ q.Phone = p.Phone ∧ q.addedBy = p.addedBy
          ∧ q.registered = p.registered ∧ q.chat = p.chat ∧ q.patients = p.patients
          ∧ q.chatState = p.chatState ∧ q.BotMode = p.BotMode
          ∧ (j ≠ id → q.lastSeen = p.lastSeen))
    ∧ (getOrCreatePoCByPhone phone contactName orgId st).2.notifications = st.notifications
    ∧ (getOrCreatePoCByPhone phone contactName orgId st).2.outbound = st.outbound
    ∧ (∃ p : PoC, st.pocs id = some p ∧ p.Phone = phone ∧ p.addedBy = orgId) := by
  have e : getOrCreatePoCByPhone phone contactName orgId st = (id, updatePoCLastSeen st id) := by
    simp only [getOrCreatePoCByPhone, h]
  rw [e]
  refine ⟨rfl, rfl, ?_, ?_, rfl, rfl, (findPoC_spec h).2⟩
  · intro j
    by_cases hj : j = id
    · subst hj
      show ((modifyPoC st j _).pocs j).isSome = _
      rw [modifyPoC_self]
      cases st.pocs j <;> rfl
    · show ((modifyPoC st id _).pocs j).isSome = _
      rw [modifyPoC_other _ _ _ _ hj]
  · intro j p hp
    by_cases hj : j = id
    · subst hj
      refine ⟨{ p with lastSeen := st.now }, ?_, rfl, rfl, rfl, rfl, rfl, rfl, rfl, rfl, ?_⟩
      · show (modifyPoC st j _).pocs j = _
        rw [modifyPoC_self, hp]
        rfl
      · intro hne; exact absurd rfl hne
    · refine ⟨p, ?_, rfl, rfl, rfl, rfl, rfl, rfl, rfl, rfl, fun _ => rfl⟩
      show (modifyPoC st id _).pocs j = _
      rw [modifyPoC_other _ _ _ _ hj]
      exact hp

/-- A contact of tenant `"Acme"` with phone `"111"`, used by witnesses. -/
def pocBob : PoC :=
  { Name := "Bob", Phone := "111", BotMode := true, addedBy := "Acme",
    registered := false, Created_Timestamp := 0, lastSeen := 0,
    chat := [], patients := [⟨"Bob", "NA", 0, "Self"⟩], chatState := [] }

/-- A store holding the organization `"Acme"` and the single contact
`pocBob`. -/
def stBob : Store :=
  { now := 9, nextId := 1, pocs := fun i => if i = 0 then some pocBob else none,
    orgs := [orgAcme], doctors := [], appointments := [], checkins := [],
    notifications := [], outbound := [], llmCalls := 0, rand := fun _ => 0, randPos := 0 }

/-- C2 witness: re-running get-or-create for `("111", "Acme")` on `stBob`
returns contact `0` again, allocates nothing and sends nothing. -/
theorem C2_get_or_create_idempotent_witness :
    (getOrCreatePoCByPhone "111" "Bob" "Acme" stBob).1 = 0
    ∧ (getOrCreatePoCByPhone "111" "Bob" "Acme" stBob).2.nextId = stBob.nextId
    ∧ (getOrCreatePoCByPhone "111" "Bob" "Acme" stBob).2.outbound = stBob.outbound := by
  have h := C2_get_or_create_idempotent "111" "Bob" "Acme" stBob 0 (by decide)
  exact ⟨h.1, h.2.1, h.2.2.2.2.2.1⟩

/-- C1: for a single phone number and two distinct tenants, running
get-or-create for the first tenant and then for the second always yields two
distinct contact documents; the document returned for each call carries
exactly that call's tenant in `addedBy` (the lookup is keyed on the pair
`(Phone, addedBy)`); the second call leaves the first tenant's document —
hence its transcript and registered flag — untouched; and any document either
call creates is scoped to exactly the tenant it was created under. -/
theorem C1_tenant_isolation (phone contactName t1 t2 : String) (st : Store)
    (hne : t1 ≠ t2) :
    ((getOrCreatePoCByPhone phone contactName t2
        (getOrCreatePoCByPhone phone contactName t1 st).2).1
      ≠ (getOrCreatePoCByPhone phone contactName t1 st).1)
    ∧ (∃ p : PoC,
        (getOrCreatePoCByPhone phone contactName t2
            (getOrCreatePoCByPhone phone contactName t1 st).2).2.pocs
          (getOrCreatePoCByPhone phone contactName t1 st).1 = some p
        ∧ p.Phone = phone ∧ p.addedBy = t1)
    ∧ (∃ p : PoC,
        (getOrCreatePoCByPhone phone contactName t2
            (getOrCreatePoCByPhone phone contactName t1 st).2).2.pocs
          (getOrCreatePoCByPhone phone contactName t2
            (getOrCreatePoCByPhone phone contactName t1 st).2).1 = some p
        ∧ p.Phone = phone ∧ p.addedBy = t2)
    ∧ ((getOrCreatePoCByPhone phone contactName t2
          (getOrCreatePoCByPhone phone contactName t1 st).2).2.pocs
            (getOrCreatePoCByPhone phone contactName t1 st).1
        = (getOrCreatePoCByPhone phone contactName t1 st).2.pocs
            (getOrCreatePoCByPhone phone contactName t1 st).1)
    ∧ (∀ (j : Nat) (q : PoC), st.pocs j = none →
        (getOrCreatePoCByPhone phone contactName t1 st).2.pocs j = some q →
        q.addedBy = t1)
    ∧ (∀ (j : Nat) (q : PoC),
        (getOrCreatePoCByPhone phone contactName t1 st).2.pocs j = none →
        (getOrCreatePoCByPhone phone contactName t2
          (getOrCreatePoCByPhone phone contactName t1 st).2).2.pocs j = some q →
        q.addedBy = t2) := by
  have hres := getOrCreate_result_spec phone contactName t1 st
  have hres2 := getOrCreate_result_spec phone contactName t2
    (getOrCreatePoCByPhone phone contactName t1 st).2
  have hlt := getOrCreate_lt_nextId phone contactName t1 st
  have hneq : (getOrCreatePoCByPhone phone contactName t2
      (getOrCreatePoCByPhone phone contactName t1 st).2).1
      ≠ (getOrCreatePoCByPhone phone contactName t1 st).1 := by
    intro heq
    obtain ⟨p1, hp1, _, ha1⟩ := hres
    cases hf : findPoC (getOrCreatePoCByPhone phone contactName t1 st).2 phone t2 with
    | some k =>
      have e2 := getOrCreate_eq_found contactName hf
      obtain ⟨_, p2, hp2, _, ha2⟩ := findPoC_spec hf
      rw [e2] at heq
      simp only at heq
      rw [heq] at hp2
      rw [hp1] at hp2
      have : p1 = p2 := by injection hp2
      subst this
      exact hne (ha1.symm.trans ha2)
    | none =>
      have e2 := getOrCreate_eq_create contactName hf
      rw [e2] at heq
      rw [(createNewPoC_spec phone contactName t2 _).1] at heq
      omega
  refine ⟨hneq, ?_, hres2, ?_, ?_, ?_⟩
  · obtain ⟨p1, hp1, hph, ha1⟩ := hres
    refine ⟨p1, ?_, hph, ha1⟩
    rw [getOrCreate_untouched phone contactName t2 _ _ (Ne.symm hneq)]
    exact hp1
  · exact getOrCreate_untouched phone contactName t2 _ _ (Ne.symm hneq)
  · exact getOrCreate_created_scoped phone contactName t1 st
  · exact getOrCreate_created_scoped phone contactName t2 _

/-- A store with nothing in it. -/
def stEmpty : Store :=
  { now := 0, nextId := 0, pocs := fun _ => none, orgs := [], doctors := [],
    appointments := [], checkins := [], notifications := [], outbound := [],
    llmCalls := 0, rand := fun _ => 0, randPos := 0 }

/-- C1 witness: creating contacts for the same phone under tenants `"A"` and
`"B"` yields two distinct documents, each scoped to its own tenant. -/
theorem C1_tenant_isolation_witness :
    ((getOrCreatePoCByPhone "777" "Ann" "B"
        (getOrCreatePoCByPhone "777" "Ann" "A" stEmpty).2).1
      ≠ (getOrCreatePoCByPhone "777" "Ann" "A" stEmpty).1)
    ∧ (∃ p : PoC,
        (getOrCreatePoCByPhone "777" "Ann" "B"
            (getOrCreatePoCByPhone "777" "Ann" "A" stEmpty).2).2.pocs
          (getOrCreatePoCByPhone "777" "Ann" "A" stEmpty).1 = some p
        ∧ p.Phone = "777" ∧ p.addedBy = "A") := by
  have h := C1_tenant_isolation "777" "Ann" "A" "B" stEmpty (by decide)
  exact ⟨h.1, h.2.1⟩

/-! ## Frame lemmas for the AI tail -/

theorem symptomFold_frame (o : Oracles) (orgId : String) :
    ∀ (lines : List String) (acc : List String × Store),
      (lines.foldl (symptomStep o orgId) acc).2.pocs = acc.2.pocs
      ∧ (lines.foldl (symptomStep o orgId) acc).2.checkins = acc.2.checkins
      ∧ (lines.foldl (symptomStep o orgId) acc).2.notifications = acc.2.notifications
      ∧ (lines.foldl (symptomStep o orgId) acc).2.outbound = acc.2.outbound
      ∧ (lines.foldl (symptomStep o orgId) acc).2.nextId = acc.2.nextId
      ∧ (lines.foldl (symptomStep o orgId) acc).2.now = acc.2.now
      ∧ acc.2.llmCalls ≤ (lines.foldl (symptomStep o orgId) acc).2.llmCalls := by
  intro lines
  induction lines with
  | nil => intro acc; exact ⟨rfl, rfl, rfl, rfl, rfl, rfl, Nat.le_refl _⟩
  | cons l ls ih =>
    intro acc
    rw [List.foldl_cons]
    obtain ⟨h1, h2, h3, h4, h5, h6, h7⟩ := ih (symptomStep o orgId acc l)
    exact ⟨h1, h2, h3, h4, h5, h6, Nat.le_trans (Nat.le_succ _) h7⟩

theorem symptomAssessmentImpl_frame (st : Store) (sym orgId : String) (o : Oracles) :
    (symptomAssessmentImpl st sym orgId o).2.pocs = st.pocs
    ∧ (symptomAssessmentImpl st sym orgId o).2.checkins = st.checkins
    ∧ (symptomAssessmentImpl st sym orgId o).2.notifications = st.notifications
    ∧ (symptomAssessmentImpl st sym orgId o).2.nextId = st.nextId
    ∧ (symptomAssessmentImpl st sym orgId o).2.now = st.now
    ∧ st.llmCalls ≤ (symptomAssessmentImpl st sym orgId o).2.llmCalls := by
  obtain ⟨h1, h2, h3, _, h5, h6, h7⟩ := symptomFold_frame o orgId
    (((splitKeepDelims [] sym.data).map jsTrim).filter
      fun x => !(x == "") && decide (x.length > 2)) ([], st)
  exact ⟨h1, h2, h3, h5, h6, h7⟩

theorem appointmentFlowImpl_frame (st : Store) (action : Option String) (phone orgId : String) :
    (appointmentFlowImpl st action phone orgId).2.pocs = st.pocs
    ∧ (appointmentFlowImpl st action phone orgId).2.checkins = st.checkins
    ∧ (appointmentFlowImpl st action phone orgId).2.notifications = st.notifications
    ∧ (appointmentFlowImpl st action phone orgId).2.nextId = st.nextId
    ∧ (appointmentFlowImpl st action phone orgId).2.now = st.now
    ∧ (appointmentFlowImpl st action phone orgId).2.llmCalls = st.llmCalls := by
  unfold appointmentFlowImpl
  rcases action with _ | a
  · exact ⟨rfl, rfl, rfl, rfl, rfl, rfl⟩
  · simp only
    split_ifs
    · obtain ⟨h1, h2, h3, h4, h5⟩ := sendAppointmentFlow_frame st phone orgId
      exact ⟨h1, (sendAppointmentFlow_frame st phone orgId).2.2.2.2.1,
        (sendAppointmentFlow_frame st phone orgId).2.2.2.1,
        (sendAppointmentFlow_frame st phone orgId).2.1,
        (sendAppointmentFlow_frame st phone orgId).2.2.1,
        (sendAppointmentFlow_frame st phone orgId).2.2.2.2.2⟩
    · exact ⟨rfl, rfl, rfl, rfl, rfl, rfl⟩
    · exact ⟨rfl, rfl, rfl, rfl, rfl, rfl⟩
    · exact ⟨rfl, rfl, rfl, rfl, rfl, rfl⟩

theorem handleLocalFunctionCall_frame (st : Store) (name : String) (args : FnArgs)
    (fromPhone orgId : String) (o : Oracles) :
    (handleLocalFunctionCall st name args fromPhone orgId o).2.pocs = st.pocs
    ∧ (handleLocalFunctionCall st name args fromPhone orgId o).2.checkins = st.checkins
    ∧ (handleLocalFunctionCall st name args fromPhone orgId o).2.notifications = st.notifications
    ∧ (handleLocalFunctionCall st name args fromPhone orgId o).2.nextId = st.nextId
    ∧ (handleLocalFunctionCall st name args fromPhone orgId o).2.now = st.now
    ∧ st.llmCalls ≤ (handleLocalFunctionCall st name args fromPhone orgId o).2.llmCalls := by
  unfold handleLocalFunctionCall
  split_ifs
  · obtain ⟨h1, h2, h3, h4, h5, h6⟩ := appointmentFlowImpl_frame st args.action fromPhone orgId
    exact ⟨h1, h2, h3, h4, h5, Nat.le_of_eq h6.symm⟩
  · obtain ⟨h1, h2, h3, h4, h5, h6⟩ := sendSupportTemplate_frame st fromPhone orgId
    exact ⟨h1, h5, h4, h2, h3, Nat.le_of_eq h6.symm⟩
  · exact ⟨rfl, rfl, rfl, rfl, rfl, Nat.le_add_right _ _⟩
  · exact ⟨rfl, rfl, rfl, rfl, rfl, Nat.le_refl _⟩
  · obtain ⟨h1, h2, h3, h4, h5, h6⟩ :=
      symptomAssessmentImpl_frame st (args.userSymptom.getD "") orgId o
    exact ⟨h1, h2, h3, h4, h5, h6⟩
  · exact ⟨rfl, rfl, rfl, rfl, rfl, Nat.le_refl _⟩

/-- With BotMode off, the AI tail acknowledges without any effect at all. -/
theorem aiTail_botModeOff {st : Store} {id : Nat} {p : PoC}
    (fromUser orgId : String) (org : Organisation) (userText : String) (o : Oracles)
    (hpoc : st.pocs id = some p) (hbm : p.BotMode = false) :
    aiTail st id fromUser orgId org userText o = (st, 200) := by
  simp only [aiTail, hpoc, hbm]
  rfl

theorem aiTail_frame (st : Store) (id : Nat) (fromUser orgId : String)
    (org : Organisation) (userText : String) (o : Oracles) :
    (aiTail st id fromUser orgId org userText o).1.checkins = st.checkins
    ∧ (aiTail st id fromUser orgId org userText o).1.notifications = st.notifications
    ∧ (aiTail st id fromUser orgId org userText o).1.nextId = st.nextId
    ∧ (aiTail st id fromUser orgId org userText o).1.now = st.now
    ∧ st.llmCalls ≤ (aiTail st id fromUser orgId org userText o).1.llmCalls
    ∧ (aiTail st id fromUser orgId org userText o).2 = 200 := by
  unfold aiTail
  simp only
  split
  · exact ⟨rfl, rfl, rfl, rfl, Nat.le_refl _, rfl⟩
  · rcases o.choice with _ | ⟨name, args⟩ | content
    · exact ⟨rfl, rfl, rfl, rfl, Nat.le_succ _, rfl⟩
    · rcases args with _ | a
      · refine ⟨?_, ?_, ?_, ?_, ?_, rfl⟩
        · show (sendWhatsAppMessage _ _ _ _).checkins = _
          rw [(sendWhatsAppMessage_frame _ _ _ _).2.2.2.2.1]
          rfl
        · show (sendWhatsAppMessage _ _ _ _).notifications = _
          rw [(sendWhatsAppMessage_frame _ _ _ _).2.2.2.1]
          rfl
        · show (sendWhatsAppMessage _ _ _ _).nextId = _
          rw [(sendWhatsAppMessage_frame _ _ _ _).2.1]
          rfl
        · show (sendWhatsAppMessage _ _ _ _).now = _
          rw [(sendWhatsAppMessage_frame _ _ _ _).2.2.1]
          rfl
        · show _ ≤ (sendWhatsAppMessage _ _ _ _).llmCalls
          rw [(sendWhatsAppMessage_frame _ _ _ _).2.2.2.2.2]
          exact Nat.le_succ _
      · obtain ⟨g1, g2, g3, g4, g5, g6⟩ := handleLocalFunctionCall_frame
          { st with llmCalls := st.llmCalls + 1 } name a fromUser orgId o
        refine ⟨?_, ?_, ?_, ?_, ?_, rfl⟩
        · show (sendWhatsAppMessage _ _ _ _).checkins = _
          rw [(sendWhatsAppMessage_frame _ _ _ _).2.2.2.2.1]
          exact g2
        · show (sendWhatsAppMessage _ _ _ _).notifications = _
          rw [(sendWhatsAppMessage_frame _ _ _ _).2.2.2.1]
          exact g3
        · show (sendWhatsAppMessage _ _ _ _).nextId = _
          rw [(sendWhatsAppMessage_frame _ _ _ _).2.1]
          exact g4
        · show (sendWhatsAppMessage _ _ _ _).now = _
          rw [(sendWhatsAppMessage_frame _ _ _ _).2.2.1]
          exact g5
        · show _ ≤ (sendWhatsAppMessage _ _ _ _).llmCalls
          rw [(sendWhatsAppMessage_frame _ _ _ _).2.2.2.2.2]
          exact Nat.le_trans (Nat.le_succ _) g6
    · refine ⟨?_, ?_, ?_, ?_, ?_, rfl⟩
      · show (sendWhatsAppMessage _ _ _ _).checkins = _
        rw [(sendWhatsAppMessage_frame _ _ _ _).2.2.2.2.1]
        rfl
      · show (sendWhatsAppMessage _ _ _ _).notifications = _
        rw [(sendWhatsAppMessage_frame _ _ _ _).2.2.2.1]
        rfl
      · show (sendWhatsAppMessage _ _ _ _).nextId = _
        rw [(sendWhatsAppMessage_frame _ _ _ _).2.1]
        rfl
      · show (sendWhatsAppMessage _ _ _ _).now = _
        rw [(sendWhatsAppMessage_frame _ _ _ _).2.2.1]
        rfl
      · show _ ≤ (sendWhatsAppMessage _ _ _ _).llmCalls
        rw [(sendWhatsAppMessage_frame _ _ _ _).2.2.2.2.2]
        exact Nat.le_succ _

/-! ## Lemmas for the check-in branch -/

theorem findOrg_eq_of_orgs {st' st : Store} (h : st'.orgs = st.orgs) (orgId : String) :
    findOrg st' orgId = findOrg st orgId := by
  unfold findOrg
  rw [h]

theorem notifyIncomingMessage_frame (st : Store) (id : Nat) (fromUser orgId userText : String) :
    (notifyIncomingMessage st id fromUser orgId userText).pocs = st.pocs
    ∧ (notifyIncomingMessage st id fromUser orgId userText).checkins = st.checkins
    ∧ (notifyIncomingMessage st id fromUser orgId userText).outbound = st.outbound
    ∧ (notifyIncomingMessage st id fromUser orgId userText).llmCalls = st.llmCalls
    ∧ (notifyIncomingMessage st id fromUser orgId userText).nextId = st.nextId
    ∧ (notifyIncomingMessage st id fromUser orgId userText).now = st.now
    ∧ (notifyIncomingMessage st id fromUser orgId userText).orgs = st.orgs
    ∧ ((notifyIncomingMessage st id fromUser orgId userText).notifications = st.notifications
        ∨ ∃ n : Notification, n.event = "Message"
          ∧ (notifyIncomingMessage st id fromUser orgId userText).notifications
              = st.notifications ++ [n]) := by
  unfold notifyIncomingMessage
  split
  · split
    · refine ⟨rfl, rfl, rfl, rfl, rfl, rfl, rfl, Or.inr ⟨_, ?_, rfl⟩⟩
      rfl
    · exact ⟨rfl, rfl, rfl, rfl, rfl, rfl, rfl, Or.inl rfl⟩
  · exact ⟨rfl, rfl, rfl, rfl, rfl, rfl, rfl, Or.inl rfl⟩

/-- A `"Checkin:"`-prefixed text never produces the `Message` notification. -/
theorem notifyIncomingMessage_checkin {userText : String}
    (h : jsStartsWith userText "Checkin:" = true) (st : Store) (id : Nat)
    (fromUser orgId : String) :
    notifyIncomingMessage st id fromUser orgId userText = st := by
  unfold notifyIncomingMessage
  rw [if_neg]
  simp [h]

theorem createCheckinDoc_spec {st : Store} {orgId : String} {org : Organisation}
    (id : Nat) (userPhone : String) (horg : findOrg st orgId = some org) :
    (∃ c : Checkin, (createCheckinDoc st id userPhone orgId).checkins = st.checkins ++ [c]
        ∧ c.OrgID = orgId ∧ c.phone = userPhone
        ∧ ∃ sfx : String, c.CheckinID = "CHK-" ++ sfx ∧ sfx.length = 8
            ∧ ∀ ch ∈ sfx.data, ch.isAlphanum = true)
    ∧ (∃ n : Notification, n.event = "Checkin"
        ∧ (createCheckinDoc st id userPhone orgId).notifications = st.notifications ++ [n])
    ∧ (createCheckinDoc st id userPhone orgId).pocs = st.pocs
    ∧ (createCheckinDoc st id userPhone orgId).outbound = st.outbound
    ∧ (createCheckinDoc st id userPhone orgId).llmCalls = st.llmCalls
    ∧ (createCheckinDoc st id userPhone orgId).nextId = st.nextId
    ∧ (createCheckinDoc st id userPhone orgId).now = st.now
    ∧ (createCheckinDoc st id userPhone orgId).orgs = st.orgs := by
  have hgen := generateId_spec st 8
  simp only [createCheckinDoc, horg, addNotification]
  refine ⟨⟨_, rfl, rfl, rfl, (generateId st 8).1, rfl, hgen.1, hgen.2⟩,
    ⟨_, ?_, rfl⟩, rfl, rfl, rfl, rfl, rfl, rfl⟩
  rfl

/-- `sendWhatsAppMessage` with a configured organization holding credentials
records exactly one outbound text message. -/
theorem sendWhatsAppMessage_sends {st : Store} {orgId : String} {org : Organisation}
    (toN message : String) (horg : findOrg st orgId = some org)
    (htok : org.whatsappToken ≠ "") (hpid : org.whatsappPhoneId ≠ "") :
    (sendWhatsAppMessage st toN message orgId).outbound
      = st.outbound
          ++ [{ toPhone := toN, kind := "text", body := message, param := "", OrgID := orgId }] := by
  simp only [sendWhatsAppMessage, horg]
  rw [if_neg]
  simp [htok, hpid]

/-- With BotMode on, the AI tail always makes the main LLM call. -/
theorem aiTail_llm_called {st : Store} {id : Nat} {p : PoC}
    (fromUser orgId : String) (org : Organisation) (userText : String) (o : Oracles)
    (hpoc : st.pocs id = some p) (hbm : p.BotMode = true) :
    st.llmCalls < (aiTail st id fromUser orgId org userText o).1.llmCalls := by
  unfold aiTail
  simp only [hpoc, hbm]
  rcases o.choice with _ | ⟨name, args⟩ | content
  · exact Nat.lt_succ_self _
  · rcases args with _ | a
    · show st.llmCalls < (saveChatToPoC (sendWhatsAppMessage _ _ _ _) _ _ _ _ _ _).llmCalls
      show st.llmCalls < (sendWhatsAppMessage _ _ _ _).llmCalls
      rw [(sendWhatsAppMessage_frame _ _ _ _).2.2.2.2.2]
      exact Nat.lt_succ_self _
    · obtain ⟨_, _, _, _, _, g6⟩ := handleLocalFunctionCall_frame
        { st with llmCalls := st.llmCalls + 1 } name a fromUser orgId o
      show st.llmCalls < (sendWhatsAppMessage _ _ _ _).llmCalls
      rw [(sendWhatsAppMessage_frame _ _ _ _).2.2.2.2.2]
      exact Nat.lt_of_lt_of_le (Nat.lt_succ_self _) g6
  · show st.llmCalls < (sendWhatsAppMessage _ _ _ _).llmCalls
    rw [(sendWhatsAppMessage_frame _ _ _ _).2.2.2.2.2]
    exact Nat.lt_succ_self _

/-- The chat entry `saveChatToPoC` persists (body truncated to 300
characters). -/
def chatEntry (d f t ty body : String) (now : Nat) : ChatMsg :=
  { Direction := d, From := f, To := t, Msg_Type := ty,
    Msg_Body := if body.length > 300 then jsTake body 300 ++ "...(truncated)" else body,
    Timestamp := now }

/-- Effect on the contact document of the inbound-save prefix of the text
branch (last-seen update from get-or-create followed by `saveChatToPoC`):
one chat entry is appended, last-seen is refreshed, everything else —
including `BotMode` and `chatState` — is untouched. -/
theorem inbound_save_poc (st : Store) (id : Nat) (d f t ty b : String) (p : PoC)
    (hp : st.pocs id = some p) :
    (saveChatToPoC (updatePoCLastSeen st id) id d f t ty b).pocs id
      = some { p with lastSeen := st.now, chat := p.chat ++ [chatEntry d f t ty b st.now] } := by
  show (modifyPoC (modifyPoC (modifyPoC st id _) id _) id _).pocs id = _
  rw [modifyPoC_self, modifyPoC_self, modifyPoC_self, hp]
  rfl

/-- C7 (amended): a check-in is triggered exactly when the inbound text starts
with `"Checkin:"` and the first `":"`-separated token after the prefix,
trimmed of surrounding whitespace, equals the resolved tenant id.  When
triggered: exactly one check-in document with id `"CHK-"` plus 8 random
alphanumeric characters is persisted, exactly one `Checkin` notification is
emitted, one outbound acknowledgment containing the tenant's display name is
sent, and no LLM call is made.  Otherwise no check-in document and no
`Checkin` notification are produced (at most a `Message` notification), and
the message falls through to normal text/AI handling (the LLM is invoked
whenever the contact's BotMode is on). -/
theorem C7_checkin_trigger (st : Store) (fromUser contactName userText orgId : String)
    (o : Oracles) (org : Organisation) (id : Nat)
    (horg : findOrg st orgId = some org)
    (hbill : org.billingActive = true)
    (htok : org.whatsappToken ≠ "")
    (hpid : org.whatsappPhoneId ≠ "")
    (hfind : findPoC st fromUser orgId = some id) :
    (jsStartsWith userText "Checkin:" = true →
      jsTrim ((jsSplit userText ':').getD 1 "") = orgId →
      (webhookTextMessage st fromUser contactName userText orgId o).2 = 200
      ∧ (∃ c : Checkin,
          (webhookTextMessage st fromUser contactName userText orgId o).1.checkins
            = st.checkins ++ [c]
          ∧ c.OrgID = orgId ∧ c.phone = fromUser
          ∧ ∃ sfx : String, c.CheckinID = "CHK-" ++ sfx ∧ sfx.length = 8
              ∧ ∀ ch ∈ sfx.data, ch.isAlphanum = true)
      ∧ (∃ n : Notification, n.event = "Checkin"
          ∧ (webhookTextMessage st fromUser contactName userText orgId o).1.notifications
              = st.notifications ++ [n])
      ∧ (∃ m : OutboundMsg,
          (webhookTextMessage st fromUser contactName userText orgId o).1.outbound
            = st.outbound ++ [m]
          ∧ m.kind = "text" ∧ m.toPhone = fromUser
          ∧ jsIncludes m.body org.orgName = true)
      ∧ (webhookTextMessage st fromUser contactName userText orgId o).1.llmCalls = st.llmCalls)
    ∧ ((jsStartsWith userText "Checkin:" = true →
          jsTrim ((jsSplit userText ':').getD 1 "") ≠ orgId) →
      (webhookTextMessage st fromUser contactName userText orgId o).1.checkins = st.checkins
      ∧ ((webhookTextMessage st fromUser contactName userText orgId o).1.notifications
            = st.notifications
          ∨ ∃ n : Notification, n.event = "Message"
              ∧ (webhookTextMessage st fromUser contactName userText orgId o).1.notifications
                  = st.notifications ++ [n])
      ∧ (∀ p : PoC, st.pocs id = some p → p.BotMode = true →
          st.llmCalls < (webhookTextMessage st fromUser contactName userText orgId o).1.llmCalls)
      ∧ (webhookTextMessage st fromUser contactName userText orgId o).2 = 200) := by
  constructor
  · intro h1 h2
    have hbeq : (jsTrim ((jsSplit userText ':').getD 1 "") == orgId) = true := beq_iff_eq.mpr h2
    have hres : webhookTextMessage st fromUser contactName userText orgId o
        = (saveChatToPoC
            (sendWhatsAppMessage
              (createCheckinDoc
                (saveChatToPoC (updatePoCLastSeen st id) id "inbound" fromUser
                  org.whatsappPhoneId "text" userText)
                id fromUser orgId)
              fromUser ("Welcome to " ++ org.orgName ++ "! Check-in recorded. Please proceed!")
              orgId)
            id "outbound" org.whatsappPhoneId fromUser "text"
            ("Welcome to " ++ org.orgName ++ "! Check-in recorded. Please proceed!"), 200) := by
      simp only [webhookTextMessage, horg, hbill, Bool.not_true, Bool.false_eq_true, if_false]
      rw [getOrCreate_eq_found contactName hfind]
      simp only [handleTextBranch]
      rw [notifyIncomingMessage_checkin h1, if_pos h1, if_pos hbeq]
    rw [hres]
    have horg1 : findOrg (saveChatToPoC (updatePoCLastSeen st id) id "inbound" fromUser
        org.whatsappPhoneId "text" userText) orgId = some org := horg
    obtain ⟨⟨c, hc1, hc2, hc3, hc4⟩, ⟨n, hn1, hn2⟩, _, hout3, hllm3, _, _, horgs3⟩ :=
      createCheckinDoc_spec id fromUser horg1
    have horg3 : findOrg (createCheckinDoc (saveChatToPoC (updatePoCLastSeen st id) id
        "inbound" fromUser org.whatsappPhoneId "text" userText) id fromUser orgId) orgId
        = some org := by
      rw [findOrg_eq_of_orgs horgs3]
      exact horg1
    refine ⟨rfl, ⟨c, ?_, hc2, hc3, hc4⟩, ⟨n, hn1, ?_⟩,
      ⟨{ toPhone := fromUser, kind := "text",
         body := "Welcome to " ++ org.orgName ++ "! Check-in recorded. Please proceed!",
         param := "", OrgID := orgId }, ?_, rfl, rfl, ?_⟩, ?_⟩
    · show (sendWhatsAppMessage _ _ _ _).checkins = _
      rw [(sendWhatsAppMessage_frame _ _ _ _).2.2.2.2.1, hc1]
      rfl
    · show (sendWhatsAppMessage _ _ _ _).notifications = _
      rw [(sendWhatsAppMessage_frame _ _ _ _).2.2.2.1, hn2]
      rfl
    · show (sendWhatsAppMessage _ _ _ _).outbound = _
      rw [sendWhatsAppMessage_sends _ _ horg3 htok hpid, hout3]
      rfl
    · exact jsIncludes_middle "Welcome to " org.orgName "! Check-in recorded. Please proceed!"
    · show (sendWhatsAppMessage _ _ _ _).llmCalls = _
      rw [(sendWhatsAppMessage_frame _ _ _ _).2.2.2.2.2, hllm3]
      rfl
  · intro hno
    have hres : webhookTextMessage st fromUser contactName userText orgId o
        = aiTail (notifyIncomingMessage
            (saveChatToPoC (updatePoCLastSeen st id) id "inbound" fromUser
              org.whatsappPhoneId "text" userText)
            id fromUser orgId userText) id fromUser orgId org userText o := by
      simp only [webhookTextMessage, horg, hbill, Bool.not_true, Bool.false_eq_true, if_false]
      rw [getOrCreate_eq_found contactName hfind]
      simp only [handleTextBranch]
      by_cases h1 : jsStartsWith userText "Checkin:" = true
      · rw [if_pos h1, if_neg (by rw [beq_iff_eq]; exact hno h1)]
      · rw [if_neg h1]
    rw [hres]
    obtain ⟨ha1, ha2, _, _, _, ha6⟩ := aiTail_frame
      (notifyIncomingMessage (saveChatToPoC (updatePoCLastSeen st id) id "inbound" fromUser
        org.whatsappPhoneId "text" userText) id fromUser orgId userText)
      id fromUser orgId org userText o
    obtain ⟨hm1, hm2, _, hm4, _, _, _, hm8⟩ := notifyIncomingMessage_frame
      (saveChatToPoC (updatePoCLastSeen st id) id "inbound" fromUser
        org.whatsappPhoneId "text" userText) id fromUser orgId userText
    refine ⟨?_, ?_, ?_, ha6⟩
    · rw [ha1, hm2]
      rfl
    · rcases hm8 with hm8 | ⟨n, hn1, hn2⟩
      · exact Or.inl (by rw [ha2, hm8]; rfl)
      · refine Or.inr ⟨n, hn1, ?_⟩
        rw [ha2, hn2]
        rfl
    · intro p hp hbm
      have hp1 := inbound_save_poc st id "inbound" fromUser org.whatsappPhoneId "text" userText p hp
      have hp2 : (notifyIncomingMessage (saveChatToPoC (updatePoCLastSeen st id) id "inbound"
          fromUser org.whatsappPhoneId "text" userText) id fromUser orgId userText).pocs id
          = some { p with
                   lastSeen := st.now,
                   chat := p.chat ++
                     [chatEntry "inbound" fromUser org.whatsappPhoneId "text" userText st.now] } := by
        rw [hm1]
        exact hp1
      have hlt := aiTail_llm_called fromUser orgId org userText o hp2 hbm
      calc st.llmCalls
          = (notifyIncomingMessage (saveChatToPoC (updatePoCLastSeen st id) id "inbound"
              fromUser org.whatsappPhoneId "text" userText) id fromUser orgId userText).llmCalls := by
            rw [hm4]
            rfl
        _ < _ := hlt

/-- C10 (amended): an inbound plain-text message that does not trigger the
check-in branch, from a contact whose `BotMode` is off, is still appended to
the contact's transcript with last-seen refreshed, but no LLM call is made,
the contact's `chatState` is left unchanged, no outbound reply is sent, and
the webhook still acknowledges with 200. -/
theorem C10_botmode_gating (st : Store) (fromUser contactName userText orgId : String)
    (o : Oracles) (org : Organisation) (id : Nat) (p : PoC)
    (horg : findOrg st orgId = some org)
    (hbill : org.billingActive = true)
    (hfind : findPoC st fromUser orgId = some id)
    (hp : st.pocs id = some p)
    (hbm : p.BotMode = false)
    (htrig : (jsStartsWith userText "Checkin:"
        && (jsTrim ((jsSplit userText ':').getD 1 "") == orgId)) = false) :
    (webhookTextMessage st fromUser contactName userText orgId o).2 = 200
    ∧ (webhookTextMessage st fromUser contactName userText orgId o).1.llmCalls = st.llmCalls
    ∧ (webhookTextMessage st fromUser contactName userText orgId o).1.outbound = st.outbound
    ∧ (webhookTextMessage st fromUser contactName userText orgId o).1.checkins = st.checkins
    ∧ (webhookTextMessage st fromUser contactName userText orgId o).1.pocs id
        = some { p with
                 lastSeen := st.now,
                 chat := p.chat ++
                   [chatEntry "inbound" fromUser org.whatsappPhoneId "text" userText st.now] } := by
  obtain ⟨hm1, hm2, hm3, hm4, _, _, _, _⟩ := notifyIncomingMessage_frame
    (saveChatToPoC (updatePoCLastSeen st id) id "inbound" fromUser
      org.whatsappPhoneId "text" userText) id fromUser orgId userText
  have hp1 := inbound_save_poc st id "inbound" fromUser org.whatsappPhoneId "text" userText p hp
  have hp2 : (notifyIncomingMessage (saveChatToPoC (updatePoCLastSeen st id) id "inbound"
      fromUser org.whatsappPhoneId "text" userText) id fromUser orgId userText).pocs id
      = some { p with
               lastSeen := st.now,
               chat := p.chat ++
                 [chatEntry "inbound" fromUser org.whatsappPhoneId "text" userText st.now] } := by
    rw [hm1]
    exact hp1
  have hres : webhookTextMessage st fromUser contactName userText orgId o
      = (notifyIncomingMessage (saveChatToPoC (updatePoCLastSeen st id) id "inbound" fromUser
          org.whatsappPhoneId "text" userText) id fromUser orgId userText, 200) := by
    simp only [webhookTextMessage, horg, hbill, Bool.not_true, Bool.false_eq_true, if_false]
    rw [getOrCreate_eq_found contactName hfind]
    simp only [handleTextBranch]
    have haitail := aiTail_botModeOff fromUser orgId org userText o hp2 (by rw [hbm] : _ = false)
    by_cases h1 : jsStartsWith userText "Checkin:" = true
    · have hb : (jsTrim ((jsSplit userText ':').getD 1 "") == orgId) = false := by
        cases hb' : (jsTrim ((jsSplit userText ':').getD 1 "") == orgId) with
        | false => rfl
        | true => rw [h1, hb'] at htrig; exact absurd htrig (by simp)
      rw [if_pos h1, if_neg (by rw [hb]; simp)]
      exact haitail
    · rw [if_neg h1]
      exact haitail
  rw [hres]
  refine ⟨rfl, ?_, ?_, ?_, hp2⟩
  · rw [hm4]; rfl
  · rw [hm3]; rfl
  · rw [hm2]; rfl

/-- The trivial oracle set used by concrete runs. -/
def oDummy : Oracles :=
  { choice := LlmChoice.noChoice, refine := LlmOutcome.fail, fullKb := LlmOutcome.fail,
    classify := fun _ => LlmOutcome.fail, jsonReply := fun _ => none }

/-- C7 counterexample: the text `"Checkin: Acme"` under tenant `"Acme"` has
suffix `" Acme"` after the colon, which is not exactly the tenant id, yet the
code (which trims the token) still creates a check-in record. -/
theorem C7_counterexample :
    "Checkin: Acme" = "Checkin:" ++ " Acme"
    ∧ " Acme" ≠ "Acme"
    ∧ (webhookTextMessage stBob "111" "Bob" "Checkin: Acme" "Acme" oDummy).1.checkins.length
        = stBob.checkins.length + 1 := by
  refine ⟨rfl, by decide, by decide⟩

/-- C7 witness: `"Checkin:Acme"` from the existing contact of tenant `"Acme"`
yields a 200 acknowledgment and exactly one persisted check-in. -/
theorem C7_checkin_trigger_witness :
    (webhookTextMessage stBob "111" "Bob" "Checkin:Acme" "Acme" oDummy).2 = 200
    ∧ (∃ c : Checkin,
        (webhookTextMessage stBob "111" "Bob" "Checkin:Acme" "Acme" oDummy).1.checkins
          = stBob.checkins ++ [c]
        ∧ c.OrgID = "Acme" ∧ c.phone = "111"
        ∧ ∃ sfx : String, c.CheckinID = "CHK-" ++ sfx ∧ sfx.length = 8
            ∧ ∀ ch ∈ sfx.data, ch.isAlphanum = true) := by
  have h := (C7_checkin_trigger stBob "111" "Bob" "Checkin:Acme" "Acme" oDummy orgAcme 0
    (by decide) (by decide) (by decide) (by decide) (by decide)).1 (by decide) (by decide)
  exact ⟨h.1, h.2.1⟩

/-- A contact with BotMode switched off. -/
def pocEve : PoC :=
  { Name := "Eve", Phone := "222", BotMode := false, addedBy := "Acme",
    registered := false, Created_Timestamp := 0, lastSeen := 0,
    chat := [], patients := [], chatState := [] }

/-- A store holding tenant `"Acme"` and the bot-disabled contact `pocEve`. -/
def stEve : Store :=
  { now := 4, nextId := 1, pocs := fun i => if i = 0 then some pocEve else none,
    orgs := [orgAcme], doctors := [], appointments := [], checkins := [],
    notifications := [], outbound := [], llmCalls := 0, rand := fun _ => 0, randPos := 0 }

/-- C10 counterexample: a plain-text message from a BotMode-off contact that
matches the check-in command still produces an outbound reply (the check-in
acknowledgment) — the check-in branch runs before the BotMode gate. -/
theorem C10_counterexample :
    (stEve.pocs 0).map PoC.BotMode = some false
    ∧ (webhookTextMessage stEve "222" "Eve" "Checkin:Acme" "Acme" oDummy).1.outbound.length
        = stEve.outbound.length + 1 := by
  refine ⟨rfl, by decide⟩

/-- C10 witness: a normal text from the BotMode-off contact is stored, makes
no LLM call, and sends nothing. -/
theorem C10_botmode_gating_witness :
    (webhookTextMessage stEve "222" "Eve" "hello" "Acme" oDummy).2 = 200
    ∧ (webhookTextMessage stEve "222" "Eve" "hello" "Acme" oDummy).1.llmCalls = stEve.llmCalls
    ∧ (webhookTextMessage stEve "222" "Eve" "hello" "Acme" oDummy).1.outbound = stEve.outbound := by
  have h := C10_botmode_gating stEve "222" "Eve" "hello" "Acme" oDummy orgAcme 0 pocEve
    (by decide) (by decide) (by decide) (by decide) (by decide) (by decide)
  exact ⟨h.1, h.2.1, h.2.2.1⟩

/-! ## Append-only transcripts -/

/-- `st'` extends every contact transcript of `st`: each existing document is
still present and its chat log is a prefix of the new one (no entry edited or
removed). -/
def ChatAppendOnly (st st' : Store) : Prop :=
  ∀ (id : Nat) (p : PoC), st.pocs id = some p →
    ∃ q : PoC, st'.pocs id = some q ∧ p.chat <+: q.chat

theorem chatAppendOnly_refl (st : Store) : ChatAppendOnly st st :=
  fun _ p hp => ⟨p, hp, List.prefix_rfl⟩

theorem chatAppendOnly_of_pocs_eq {st st' : Store} (h : st'.pocs = st.pocs) :
    ChatAppendOnly st st' :=
  fun _ p hp => ⟨p, by rw [h]; exact hp, List.prefix_rfl⟩

theorem chatAppendOnly_trans {s1 s2 s3 : Store}
    (h12 : ChatAppendOnly s1 s2) (h23 : ChatAppendOnly s2 s3) : ChatAppendOnly s1 s3 := by
  intro id p hp
  obtain ⟨q, hq, hpre⟩ := h12 id p hp
  obtain ⟨r, hr, hpre2⟩ := h23 id q hq
  exact ⟨r, hr, hpre.trans hpre2⟩

theorem chatAppendOnly_modify (st : Store) (id : Nat) (f : PoC → PoC)
    (hf : ∀ p : PoC, p.chat <+: (f p).chat) : ChatAppendOnly st (modifyPoC st id f) := by
  intro j p hp
  by_cases hj : j = id
  · subst hj
    refine ⟨f p, ?_, hf p⟩
    rw [modifyPoC_self, hp]
    rfl
  · refine ⟨p, ?_, List.prefix_rfl⟩
    rw [modifyPoC_other _ _ _ _ hj]
    exact hp

theorem chatAppendOnly_saveChat (st : Store) (id : Nat) (d f t ty b : String) :
    ChatAppendOnly st (saveChatToPoC st id d f t ty b) := by
  intro j p hp
  by_cases hj : j = id
  · subst hj
    refine ⟨{ p with lastSeen := st.now, chat := p.chat ++ [chatEntry d f t ty b st.now] },
      ?_, List.prefix_append _ _⟩
    show (modifyPoC (modifyPoC st j _) j _).pocs j = _
    rw [modifyPoC_self, modifyPoC_self, hp]
    rfl
  · refine ⟨p, ?_, List.prefix_rfl⟩
    show (modifyPoC (modifyPoC st id _) id _).pocs j = _
    rw [modifyPoC_other _ _ _ _ hj, modifyPoC_other _ _ _ _ hj]
    exact hp

theorem updateAppointmentFeedback_pocs (fd : NfmFlowData) (orgId : String) (st : Store) :
    (updateAppointmentFeedback fd orgId st).pocs = st.pocs := by
  cases horg : findOrg st orgId with
  | none => simp only [updateAppointmentFeedback, horg]
  | some org =>
    cases hfind : st.appointments.find?
        (fun a => a.OrgID == orgId && a.FlowToken == fd.flow_token.getD "") with
    | none => simp only [updateAppointmentFeedback, horg, hfind]
    | some apt => simp only [updateAppointmentFeedback, horg, hfind, addNotification]

theorem chatAppendOnly_getOrCreate (phone contactName orgId : String) (st : Store)
    (hwf : ∀ i : Nat, st.nextId ≤ i → st.pocs i = none) :
    ChatAppendOnly st (getOrCreatePoCByPhone phone contactName orgId st).2 := by
  cases hf : findPoC st phone orgId with
  | some id =>
    rw [getOrCreate_eq_found contactName hf]
    exact chatAppendOnly_modify st id _ (fun p => List.prefix_rfl)
  | none =>
    rw [getOrCreate_eq_create contactName hf]
    intro j p hp
    by_cases hj : j = st.nextId
    · subst hj
      rw [hwf _ (Nat.le_refl _)] at hp
      exact Option.noConfusion hp
    · refine ⟨p, ?_, List.prefix_rfl⟩
      rw [(createNewPoC_spec phone contactName orgId st).2.2.2.1 j hj]
      exact hp

theorem chatAppendOnly_aiTail (st : Store) (id : Nat) (fromUser orgId : String)
    (org : Organisation) (userText : String) (o : Oracles) :
    ChatAppendOnly st (aiTail st id fromUser orgId org userText o).1 := by
  unfold aiTail
  simp only
  split
  · exact chatAppendOnly_refl st
  · rcases o.choice with _ | ⟨name, args⟩ | content
    · exact chatAppendOnly_of_pocs_eq rfl
    · rcases args with _ | a
      · refine chatAppendOnly_trans ?_ (chatAppendOnly_saveChat _ _ _ _ _ _ _)
        refine chatAppendOnly_trans ?_
          (chatAppendOnly_of_pocs_eq (sendWhatsAppMessage_frame _ _ _ _).1)
        refine chatAppendOnly_trans ?_ (chatAppendOnly_modify _ _ _ ?_)
        · exact chatAppendOnly_of_pocs_eq rfl
        · intro p
          exact List.prefix_rfl
      · refine chatAppendOnly_trans ?_ (chatAppendOnly_saveChat _ _ _ _ _ _ _)
        refine chatAppendOnly_trans ?_
          (chatAppendOnly_of_pocs_eq (sendWhatsAppMessage_frame _ _ _ _).1)
        refine chatAppendOnly_trans ?_ (chatAppendOnly_modify _ _ _ ?_)
        · refine chatAppendOnly_of_pocs_eq ?_
          rw [(handleLocalFunctionCall_frame _ _ _ _ _ _).1]
        · intro p
          exact List.prefix_rfl
    · refine chatAppendOnly_trans ?_ (chatAppendOnly_saveChat _ _ _ _ _ _ _)
      refine chatAppendOnly_trans ?_
        (chatAppendOnly_of_pocs_eq (sendWhatsAppMessage_frame _ _ _ _).1)
      refine chatAppendOnly_trans ?_ (chatAppendOnly_modify _ _ _ ?_)
      · exact chatAppendOnly_of_pocs_eq rfl
      · intro p
        exact List.prefix_rfl

theorem createCheckinDoc_pocs (st : Store) (id : Nat) (phone orgId : String) :
    (createCheckinDoc st id phone orgId).pocs = st.pocs := by
  unfold createCheckinDoc
  split <;> rfl

theorem chatAppendOnly_handleTextBranch (st : Store) (id : Nat) (fromUser orgId : String)
    (org : Organisation) (userText : String) (o : Oracles) :
    ChatAppendOnly st (handleTextBranch st id fromUser orgId org userText o).1 := by
  have hsave := chatAppendOnly_saveChat st id "inbound" fromUser org.whatsappPhoneId "text" userText
  have hnotif : ChatAppendOnly st
      (notifyIncomingMessage
        (saveChatToPoC st id "inbound" fromUser org.whatsappPhoneId "text" userText)
        id fromUser orgId userText) :=
    chatAppendOnly_trans hsave
      (chatAppendOnly_of_pocs_eq (notifyIncomingMessage_frame _ _ _ _ _).1)
  unfold handleTextBranch
  simp only
  split
  · split
    · refine chatAppendOnly_trans hnotif ?_
      refine chatAppendOnly_trans ?_ (chatAppendOnly_saveChat _ _ _ _ _ _ _)
      refine chatAppendOnly_trans ?_
        (chatAppendOnly_of_pocs_eq (sendWhatsAppMessage_frame _ _ _ _).1)
      exact chatAppendOnly_of_pocs_eq (createCheckinDoc_pocs _ _ _ _)
    · exact chatAppendOnly_trans hnotif (chatAppendOnly_aiTail _ _ _ _ _ _ _)
  · exact chatAppendOnly_trans hnotif (chatAppendOnly_aiTail _ _ _ _ _ _ _)

theorem chatAppendOnly_webhookText (st : Store) (fromUser contactName userText orgId : String)
    (o : Oracles) (hwf : ∀ i : Nat, st.nextId ≤ i → st.pocs i = none) :
    ChatAppendOnly st (webhookTextMessage st fromUser contactName userText orgId o).1 := by
  unfold webhookTextMessage
  split
  · exact chatAppendOnly_refl st
  · split
    · exact chatAppendOnly_refl st
    · exact chatAppendOnly_trans (chatAppendOnly_getOrCreate fromUser contactName orgId st hwf)
        (chatAppendOnly_handleTextBranch _ _ _ _ _ _ _)

/-- C8: `saveChatToPoC` appends exactly one entry to the contact's transcript
and refreshes last-seen, leaving other documents alone; the stored body is the
first 300 characters plus the truncation marker when the body exceeds 300
characters and the body verbatim otherwise; and the pipeline operations
(feedback update, get-or-create, the whole text-message webhook) never edit or
remove an existing transcript entry — the old transcript is always a prefix of
the new one. -/
theorem C8_transcript_truncation :
    (∀ (st : Store) (id : Nat) (d f t ty body : String) (p : PoC), st.pocs id = some p →
      (saveChatToPoC st id d f t ty body).pocs id
        = some { p with lastSeen := st.now, chat := p.chat ++ [chatEntry d f t ty body st.now] }
      ∧ (∀ j : Nat, j ≠ id → (saveChatToPoC st id d f t ty body).pocs j = st.pocs j))
    ∧ (∀ (d f t ty body : String) (now : Nat), body.length > 300 →
        (chatEntry d f t ty body now).Msg_Body = jsTake body 300 ++ "...(truncated)")
    ∧ (∀ (d f t ty body : String) (now : Nat), body.length ≤ 300 →
        (chatEntry d f t ty body now).Msg_Body = body)
    ∧ (∀ (fd : NfmFlowData) (orgId : String) (st : Store),
        ChatAppendOnly st (updateAppointmentFeedback fd orgId st))
    ∧ (∀ (phone contactName orgId : String) (st : Store),
        (∀ i : Nat, st.nextId ≤ i → st.pocs i = none) →
        ChatAppendOnly st (getOrCreatePoCByPhone phone contactName orgId st).2)
    ∧ (∀ (st : Store) (fromUser contactName userText orgId : String) (o : Oracles),
        (∀ i : Nat, st.nextId ≤ i → st.pocs i = none) →
        ChatAppendOnly st (webhookTextMessage st fromUser contactName userText orgId o).1) := by
  refine ⟨?_, ?_, ?_, ?_, ?_, ?_⟩
  · intro st id d f t ty body p hp
    constructor
    · show (modifyPoC (modifyPoC st id _) id _).pocs id = _
      rw [modifyPoC_self, modifyPoC_self, hp]
      rfl
    · intro j hj
      show (modifyPoC (modifyPoC st id _) id _).pocs j = _
      rw [modifyPoC_other _ _ _ _ hj, modifyPoC_other _ _ _ _ hj]
  · intro d f t ty body now h
    unfold chatEntry
    simp only
    rw [if_pos h]
  · intro d f t ty body now h
    unfold chatEntry
    simp only
    rw [if_neg (by omega)]
  · intro fd orgId st
    exact chatAppendOnly_of_pocs_eq (updateAppointmentFeedback_pocs fd orgId st)
  · intro phone contactName orgId st hwf
    exact chatAppendOnly_getOrCreate phone contactName orgId st hwf
  · intro st fromUser contactName userText orgId o hwf
    exact chatAppendOnly_webhookText st fromUser contactName userText orgId o hwf

/-- C8 witness: a short body is stored verbatim as one appended entry, and a
350-character body is truncated to its first 300 characters plus the marker. -/
theorem C8_transcript_truncation_witness :
    (saveChatToPoC stBob 0 "inbound" "111" "555" "text" "hi").pocs 0
      = some { pocBob with
               lastSeen := stBob.now,
               chat := pocBob.chat ++ [chatEntry "inbound" "111" "555" "text" "hi" stBob.now] }
    ∧ (chatEntry "inbound" "111" "555" "text" "hi" stBob.now).Msg_Body = "hi"
    ∧ (chatEntry "inbound" "111" "555" "text" ⟨List.replicate 350 'a'⟩ 0).Msg_Body
        = jsTake ⟨List.replicate 350 'a'⟩ 300 ++ "...(truncated)" := by
  refine ⟨(C8_transcript_truncation.1 stBob 0 "inbound" "111" "555" "text" "hi" pocBob rfl).1,
    C8_transcript_truncation.2.2.1 "inbound" "111" "555" "text" "hi" stBob.now (by decide),
    C8_transcript_truncation.2.1 "inbound" "111" "555" "text" ⟨List.replicate 350 'a'⟩ 0
      (by decide)⟩

end HRM
